import Mathlib

/-!
# Harvester installer console: status poller and install wizard

A shallow embedding of `pkg/console/dashboard_panels.go` and
`pkg/console/install_panels.go`.

Conventions of the embedding:

* a Go `string` is a Lean `String`; functions that scan a string work on its
  list of characters (`String.toList`);
* a Go `error` is represented by its `Error()` text, `Option String` standing
  for a possibly-nil error;
* the package-level variables (`current`, `installData`, `cfg.Config`) are
  passed explicitly and the new value is returned;
* the outcome of every shell probe of one poll tick is bundled in a record.
-/

namespace Harvester

/-! ## Dashboard: `dashboard_panels.go` -/

/-- The colour constants, an `iota` block starting at `colorBlack = 0`. -/
def colorBlack : Nat := 0
/-- Second constant of the `iota` block. -/
def colorRed : Nat := 1
/-- Third constant of the `iota` block. -/
def colorGreen : Nat := 2
/-- Fourth constant of the `iota` block. -/
def colorYellow : Nat := 3
/-- Fifth constant of the `iota` block. -/
def colorBlue : Nat := 4

/-- The constant `statusRunning`. -/
def statusRunning : String := "Running"
/-- The constant `statusUnknown`. -/
def statusUnknown : String := "Unknown"
/-- The constant `statusSettingUp`. -/
def statusSettingUp : String := "Setting up Harvester"

/-- The poller's memory, `type state struct`. -/
structure State where
  installed : Bool
  firstHost : Bool
  deriving DecidableEq, Repr

/-- What `exec.Cmd.CombinedOutput` gave back: the bytes written and, when the
command failed, the text of the error. -/
structure CmdResult where
  output : String
  err : Option String
  deriving DecidableEq, Repr

/-- The outcomes of the probes of one poll tick. -/
structure Probes where
  k8sIsReady : Bool
  chartIsInstalled : Bool
  nodeIsPresent : Bool
  podCmd : CmdResult
  deriving DecidableEq, Repr

/-- Whether `pat` occurs as a contiguous block of `l`. -/
def hasInfix (pat : List Char) : List Char → Bool
  | [] => pat.isEmpty
  | c :: cs => pat.isPrefixOf (c :: cs) || hasInfix pat cs

/-- Go's `strings.Contains`. -/
def stringsContains (s substr : String) : Bool :=
  hasInfix substr.toList s.toList

/-- The text of `errors.Wrap(err, message)`: the message, a colon, the cause. -/
def errorsWrap (err message : String) : String :=
  message ++ ": " ++ err

/-- The function `harvesterPodStatus`, from the outcome of its shell pipeline:
the status and the error. -/
def harvesterPodStatus (r : CmdResult) : String × Option String :=
  match r.err with
  | some e => ("", some (errorsWrap e r.output))
  | none =>
    if stringsContains r.output statusRunning then (statusRunning, none)
    else (r.output, none)

/-- The function `wrapColor`: `fmt.Sprintf("\033[3%d;7m%s\033[0m", color, s)`. -/
def wrapColor (s : String) (color : Nat) : String :=
  "\x1b[3" ++ toString color ++ ";7m" ++ s ++ "\x1b[0m"

/-- The part of `getHarvesterStatus` after the install gate: the node check
and the pod-phase step. -/
def statusAfterInstall (p : Probes) : String :=
  if !p.nodeIsPresent then wrapColor statusUnknown colorYellow
  else
    let r := harvesterPodStatus p.podCmd
    let status := match r.2 with
      | some e => wrapColor e colorRed
      | none => r.1
    if status = statusRunning then wrapColor status colorGreen
    else wrapColor status colorYellow

/-- The function `getHarvesterStatus`: the displayed string and the new value
of `current`. -/
def getHarvesterStatus (current : State) (p : Probes) : String × State :=
  if current.firstHost && !current.installed then
    if !p.k8sIsReady || !p.chartIsInstalled then (statusSettingUp, current)
    else (statusAfterInstall p, { current with installed := true })
  else (statusAfterInstall p, current)

/-- A run of poll ticks (`syncHarvesterStatus` calling `doSyncHarvesterStatus`
once per tick): the strings displayed, in order, and the final state. -/
def pollTicks (current : State) : List Probes → List String × State
  | [] => ([], current)
  | p :: ps =>
    let r := getHarvesterStatus current p
    let rest := pollTicks r.2 ps
    (r.1 :: rest.1, rest.2)

/-- The tick gets as far as the pod-phase query: the install gate is passed
and the local node is registered. -/
def reachesPodStep (current : State) (p : Probes) : Bool :=
  !(current.firstHost && !current.installed &&
      (!p.k8sIsReady || !p.chartIsInstalled)) && p.nodeIsPresent

/-! ## Library functions used by the wizard

Go's `strings`, `net` and the Kubernetes `validation` package, transcribed for
the inputs the wizard gives them. -/

/-- Go's `strings.Split(s, sep)` for a separator of one character: the pieces
between the separators, a single empty piece for the empty string. -/
def splitChar (sep : Char) : List Char → List (List Char)
  | [] => [[]]
  | c :: cs =>
    if c = sep then [] :: splitChar sep cs
    else match splitChar sep cs with
      | [] => [[c]]
      | h :: t => (c :: h) :: t

/-- Go's `strings.Split` with a one-character separator, on strings. -/
def stringsSplit (s : String) (sep : Char) : List String :=
  (splitChar sep s.data).map String.mk

/-- Go's `strings.Join`. -/
def stringsJoin : List String → String → String
  | [], _ => ""
  | [a], _ => a
  | a :: b :: rest, sep => a ++ sep ++ stringsJoin (b :: rest) sep

/-- A decimal digit, `'0' <= c && c <= '9'`. -/
def isDigit (c : Char) : Bool :=
  decide (48 ≤ c.toNat) && decide (c.toNat ≤ 57)

/-- The constant `big` of Go's `net` parser. -/
def big : Nat := 0xFFFFFF

/-- The loop of Go's `net.dtoi`: `n` is the number read so far and `i` the
count of characters consumed. -/
def dtoiLoop : List Char → Nat → Nat → Nat × Nat × Bool
  | [], n, i => if i = 0 then (0, 0, false) else (n, i, true)
  | c :: cs, n, i =>
    if isDigit c then
      if n * 10 + (c.toNat - 48) ≥ big then (big, i, false)
      else dtoiLoop cs (n * 10 + (c.toNat - 48)) (i + 1)
    else if i = 0 then (0, 0, false) else (n, i, true)

/-- Go's `net.dtoi`: decimal to integer; the number, the count of characters
consumed and whether a number was read. -/
def dtoi (s : List Char) : Nat × Nat × Bool :=
  dtoiLoop s 0 0

/-- The loop of Go's `net.parseIPv4` (as in the Go releases of the repository's
time, which accept leading zeros): `k` octets are still to be read, `first`
says that no octet has been read yet. The octets read and the rest of the
text. -/
def parseOctets : Nat → Bool → List Char → Option (List Nat × List Char)
  | 0, _, s => some ([], s)
  | k + 1, first, s =>
    match s with
    | [] => none
    | c :: cs =>
      if !first && c ≠ '.' then none
      else
        let s1 := if first then c :: cs else cs
        let r := dtoi s1
        if !r.2.2 || r.1 > 0xFF then none
        else
          match parseOctets k false (s1.drop r.2.1) with
          | none => none
          | some (p, rest) => some (r.1 :: p, rest)

/-- Go's `net.parseIPv4`: the four octets of a dotted-quad text. -/
def parseIPv4 (s : List Char) : Option (List Nat) :=
  match parseOctets 4 true s with
  | some (p, []) => some p
  | _ => none

/-- Go's `IP.String` on an IPv4 address: the octets in decimal, joined by
dots. -/
def dottedQuad (p : List Nat) : String :=
  toString (p.getD 0 0) ++ "." ++ toString (p.getD 1 0) ++ "." ++
    toString (p.getD 2 0) ++ "." ++ toString (p.getD 3 0)

/-- Go's `net.CIDRMask(ones, 8*l)` for `ones` within range: `l` bytes, each
`0xff` while eight or more ones remain, then `^byte(0xff >> n)`, then zero. -/
def cidrMask : Nat → Nat → List Nat
  | 0, _ => []
  | l + 1, n =>
    if n ≥ 8 then 0xff :: cidrMask l (n - 8)
    else (0xff - 0xff / 2 ^ n) :: cidrMask l 0

/-- The parts of Go's `net` package that are taken as given: the IPv6 text
parser (sixteen bytes on success) and `IP.String` on its results. -/
structure GoNet where
  parseIPv6 : List Char → Option (List Nat)
  ip16String : List Nat → String

/-- The text before the first `c` and the text after it
(`s[:i]`, `s[i+1:]` for `i := IndexByteString(s, c)`), none when `c` is absent. -/
def cutAt (c : Char) : List Char → Option (List Char × List Char)
  | [] => none
  | x :: xs =>
    if x = c then some ([], xs)
    else match cutAt c xs with
      | none => none
      | some (a, b) => some (x :: a, b)

/-- Go's `net.ParseCIDR`, as far as `validateAddress` uses it: on success the
text of the address (`ip.String()`) and the bytes of the mask (`ipNet.Mask`); on
failure the text of the `ParseError`. -/
def parseCIDR (gonet : GoNet) (s : String) : Except String (String × List Nat) :=
  let fail : Except String (String × List Nat) := .error ("invalid CIDR address: " ++ s)
  match cutAt '/' s.data with
  | none => fail
  | some (addr, mask) =>
    let r := dtoi mask
    match parseIPv4 addr with
    | some ip =>
      if !r.2.2 || r.2.1 ≠ mask.length || r.1 > 8 * 4 then fail
      else .ok (dottedQuad ip, cidrMask 4 r.1)
    | none =>
      match gonet.parseIPv6 addr with
      | none => fail
      | some ip =>
        if !r.2.2 || r.2.1 ≠ mask.length || r.1 > 8 * 16 then fail
        else .ok (gonet.ip16String ip, cidrMask 16 r.1)

/-- The loop of Go's `net.ParseIP` over the characters of `s`: the text is
handed to the IPv4 parser when a dot comes first and to the IPv6 parser when a
colon comes first; a text with neither is no address. -/
def parseIPScan (gonet : GoNet) (s : List Char) : List Char → Bool
  | [] => false
  | c :: cs =>
    if c = '.' then (parseIPv4 s).isSome
    else if c = ':' then (gonet.parseIPv6 s).isSome
    else parseIPScan gonet s cs

/-- Whether Go's `net.ParseIP` returns an address. -/
def parseIPOk (gonet : GoNet) (s : String) : Bool :=
  parseIPScan gonet s.data s.data

/-- A character of `[A-Za-z0-9]`. -/
def isAlnum (c : Char) : Bool :=
  (decide (65 ≤ c.toNat) && decide (c.toNat ≤ 90)) ||
  (decide (97 ≤ c.toNat) && decide (c.toNat ≤ 122)) || isDigit c

/-- A character of `[a-z0-9]`. -/
def isLowerAlnum (c : Char) : Bool :=
  (decide (97 ≤ c.toNat) && decide (c.toNat ≤ 122)) || isDigit c

/-- The regular expression `^([A-Za-z0-9][-A-Za-z0-9_.]*)?[A-Za-z0-9]$` of the
Kubernetes `validation` package. -/
def matchesQualifiedName (name : List Char) : Bool :=
  match name, name.getLast? with
  | c :: _, some z =>
    isAlnum c && isAlnum z &&
      name.all (fun x => isAlnum x || x = '-' || x = '_' || x = '.')
  | _, _ => false

/-- One label of a DNS-1123 subdomain, `[a-z0-9]([-a-z0-9]*[a-z0-9])?`. -/
def matchesDNS1123Label (label : List Char) : Bool :=
  match label, label.getLast? with
  | c :: _, some z =>
    isLowerAlnum c && isLowerAlnum z && label.all (fun x => isLowerAlnum x || x = '-')
  | _, _ => false

/-- Whether `validation.IsDNS1123Subdomain` reports no error: at most 253
characters, labels separated by dots. -/
def isDNS1123Subdomain (value : List Char) : Bool :=
  decide (value.length ≤ 253) && (splitChar '.' value).all matchesDNS1123Label

/-- Whether `validation.IsQualifiedName` reports no error: an optional DNS
subdomain prefix and a slash, then a name of at most 63 characters. -/
def isQualifiedName (value : String) : Bool :=
  match splitChar '/' value.data with
  | [name] => decide (name.length ≤ 63) && matchesQualifiedName name
  | [pre, name] =>
    !pre.isEmpty && isDNS1123Subdomain pre &&
      decide (name.length ≤ 63) && matchesQualifiedName name
  | _ => false

/-! ## Install wizard: `install_panels.go` -/

deriving instance DecidableEq for Except

/-- The record `InstallData`, the wizard's own copy of the answers. -/
structure InstallData where
  InstallMode : String
  Device : String
  ServerURL : String
  Token : String
  Password : String
  SSHKeyURL : String
  Interface : String
  NetworkMode : String
  HostName : String
  Address : String
  IP : String
  NetMask : String
  Gateway : String
  DNSServers : String
  Proxy : String
  ConfigURL : String
  deriving DecidableEq, Repr

/-- The value `installData = InstallData{}` the package starts with. -/
def InstallData.empty : InstallData :=
  ⟨"", "", "", "", "", "", "", "", "", "", "", "", "", "", "", ""⟩

/-- The fields of `config.Install` that the wizard touches. -/
structure Install where
  Device : String
  ConfigURL : String
  Silent : Bool
  deriving DecidableEq, Repr

/-- The fields of the target configuration `cfg.Config` that the wizard writes.
`Install` is a pointer in the source, `none` standing for nil; a nil slice is
the empty list; the `Environment` map is a list of key-value pairs. -/
structure Config where
  InstallMode : String
  Install : Option Install
  ServerURL : String
  Token : String
  Password : String
  SSHAuthorizedKeys : List String
  Hostname : String
  ExtraK3sArgs : List String
  DNSNameservers : List String
  Runcmd : List String
  Environment : List (String × String)
  deriving DecidableEq, Repr

/-- The target configuration before the wizard has written anything. -/
def Config.empty : Config :=
  ⟨"", none, "", "", "", [], "", [], [], [], []⟩

/-- The panels that take key events, named after the package's panel-name
constants. -/
inductive Panel where
  | askCreatePanel
  | diskPanel
  | serverURLPanel
  | tokenPanel
  | passwordPanel
  | passwordConfirmPanel
  | sshKeyPanel
  | networkPanel
  | askNetworkModePanel
  | hostNamePanel
  | addressPanel
  | gatewayPanel
  | dnsServersPanel
  | proxyPanel
  | cloudInitPanel
  | confirmPanel
  | installPanel
  deriving DecidableEq, Repr

/-- The keys bound by the wizard's panels. -/
inductive Key where
  | KeyEnter
  | KeyEsc
  | KeyArrowUp
  | KeyArrowDown
  deriving DecidableEq, Repr

/-- What the collaborators called by a handler give back on one key event. -/
structure External where
  /-- The error of `validateInsecureURL`, if any. -/
  ping : Option String
  /-- The outcome of `getRemoteSSHKeys`. -/
  pubKeys : Except String (List String)
  /-- The outcome of `util.GetEncrptedPasswd`. -/
  encrypted : Except String String
  /-- The outcome of `netlink.LinkByName` followed by `netlink.RouteList`: for
  each route the text `route.Gw.To4().String()` when `route.Gw` is not nil. -/
  routes : Except String (List (Option String))
  /-- The error of `config.PrintInstall`, if any. -/
  printInstall : Option String
  deriving DecidableEq, Repr

/-- One key event: the key, what `GetData` of the focused panel returns, what
`GetData` of the password panel returns (read by the confirm-password panel),
and the collaborators' outcomes. -/
structure Event where
  key : Key
  data : String
  password1 : String
  ext : External
  deriving DecidableEq, Repr

/-- What is taken as given about code outside these two files. -/
structure Env where
  gonet : GoNet
  /-- The text of the error `validateIP` returns for a rejected input. -/
  ipErrorText : String → String
  /-- The function `getFormattedServerURL`. -/
  getFormattedServerURL : String → String
  /-- The text that the verb `%q` of `fmt.Sprintf` prints for a string. -/
  quote : String → String

/-- Modelled from the spec: the spinner is declared outside these files; it is
a panel that indicates an in-flight background probe, with a success or failure
terminal display. Hidden, started with a text, or stopped with the arguments of
`spinner.Stop`. -/
inductive Spinner where
  | hidden
  | spinning (text : String)
  | stopped (isErr : Bool) (message : String)
  deriving DecidableEq, Repr

/-- The state kept by the widgets themselves: which input panels are visible,
the `DefaultValue` of the gateway and DNS-servers panels (the pre-filled text;
the `DefaultValue` of the other panels is not followed), and the spinner. -/
structure Widgets where
  shown : List Panel
  gatewayDefault : String
  dnsServersDefault : String
  spinner : Spinner
  deriving DecidableEq, Repr

/-- The state the key handlers work on: `installData`, `cfg.Config`, the panel
that holds the focus (none once the wizard has halted), the contents of the two
validator panels, the error a handler returned to the main loop, which stops
it, and the widgets' own state. -/
structure Console where
  installData : InstallData
  config : Config
  focus : Option Panel
  validator : String
  networkValidator : String
  failed : Option String
  ui : Widgets
  deriving DecidableEq, Repr

/-- The wizard as `layoutInstall` first shows it: nothing entered, the
install-mode panel visible and in focus, the DNS-servers panel created with
`DefaultValue = "8.8.8.8"`. -/
def Console.initial : Console :=
  ⟨InstallData.empty, Config.empty, some .askCreatePanel, "", "", none,
    ⟨[.askCreatePanel], "", "8.8.8.8", .hidden⟩⟩

/-- Modelled from the spec: the constant `modeCreate` is declared outside these
files; the spec's flow names the mode `create`. -/
def modeCreate : String := "create"
/-- Modelled from the spec: the constant `modeJoin` is declared outside these
files; the spec's flow names the mode `join`. -/
def modeJoin : String := "join"
/-- Modelled from the spec: the constant `networkModeDHCP` is declared outside
these files; the spec writes `NetworkMode=dhcp`. -/
def networkModeDHCP : String := "dhcp"
/-- Modelled from the spec: the constant `networkModeStatic` is declared
outside these files; the spec writes `NetworkMode=static`. -/
def networkModeStatic : String := "static"

/-- Modelled from the spec: `Close` of a panel is declared outside these files;
it marks the panel not visible. The post-close hooks, which are in these files,
are applied where a handler closes a panel that has one. -/
def hide (ui : Widgets) (p : Panel) : Widgets :=
  { ui with shown := ui.shown.filter (fun q => q ≠ p) }

/-- A handler closes the panel `p`. -/
def hidePanel (w : Console) (p : Panel) : Console :=
  { w with ui := hide w.ui p }

/-- The hook `gatewayV.PreShow`, as far as the pre-filled text goes:
`gatewayV.DefaultValue = installData.Gateway`. -/
def gatewayVPreShow (d : InstallData) (ui : Widgets) : Widgets :=
  { ui with gatewayDefault := d.Gateway }

/-- The hook `dnsServersV.PreShow`, as far as the pre-filled text goes: the
`DefaultValue` is overwritten only when `installData.DNSServers` is not empty. -/
def dnsServersVPreShow (d : InstallData) (ui : Widgets) : Widgets :=
  if d.DNSServers ≠ "" then { ui with dnsServersDefault := d.DNSServers } else ui

/-- Modelled from the spec: `Show` of a panel is declared outside these files;
it invokes the panel's pre-show hook and then marks the panel visible. -/
def reveal (d : InstallData) (ui : Widgets) (p : Panel) : Widgets :=
  let ui1 := match p with
    | .gatewayPanel => gatewayVPreShow d ui
    | .dnsServersPanel => dnsServersVPreShow d ui
    | _ => ui
  { ui1 with shown := if p ∈ ui1.shown then ui1.shown else ui1.shown ++ [p] }

/-- Modelled from the spec: `showNext` is declared outside these files. It
shows each of the listed panels in order; showing a panel gives it the focus,
so the last one listed holds the focus afterwards (the handlers rely on this:
the password panel's confirm calls `showNext(c, passwordConfirmPanel)` to move
on to the second entry). The pre-show hooks read `installData` and do not write
it. -/
def showNext (w : Console) (names : List Panel) : Console :=
  match names.getLast? with
  | some p => { w with focus := some p, ui := names.foldl (reveal w.installData) w.ui }
  | none => w

/-- The spinner panel is closed (`asyncTaskV.Close()`). -/
def closeSpinner (w : Console) : Console :=
  { w with ui.spinner := .hidden }

/-- The spinner panel is shown and the spinner started with a text
(`asyncTaskV.Close()`, `asyncTaskV.Show()`, `NewSpinner`, `spinner.Start()`). -/
def startSpinner (w : Console) (text : String) : Console :=
  { w with ui.spinner := .spinning text }

/-- The text `fmt.Sprintf("Checking %q...", s)`. -/
def checkingText (env : Env) (s : String) : String :=
  "Checking " ++ env.quote s ++ "..."

/-- What the goroutine of a background probe does, in order: it stops the
spinner, it assigns to package-level variables in the goroutine itself, or it
hands a callback to `g.Update`, which the render loop runs. -/
inductive GoStep where
  | spinnerStop (isErr : Bool) (message : String)
  | assign (f : Console → Console)
  | update (f : Console → Console)

/-- The effect of one step of a goroutine on the state. -/
def runGoStep (w : Console) : GoStep → Console
  | .spinnerStop isErr message => { w with ui.spinner := .stopped isErr message }
  | .assign f => f w
  | .update f => f w

/-- The effect of a goroutine: its steps in order. -/
def runGoroutine (w : Console) (steps : List GoStep) : Console :=
  steps.foldl runGoStep w

/-- The number of callbacks a goroutine hands to `g.Update`. -/
def countUpdates : List GoStep → Nat
  | [] => 0
  | .update _ :: rest => countUpdates rest + 1
  | _ :: rest => countUpdates rest

/-- The state after only the assignments the goroutine makes itself, outside
any `g.Update` callback. -/
def runAssignsOnly (w : Console) : List GoStep → Console
  | [] => w
  | .assign f :: rest => runAssignsOnly (f w) rest
  | _ :: rest => runAssignsOnly w rest

/-- Modelled from the spec: `validateIP` is declared outside these files; the
input must parse as a valid IP literal (Go's `net.ParseIP`), otherwise an error
is returned. -/
def validateIP (env : Env) (ip : String) : Option String :=
  if parseIPOk env.gonet ip then none else some (env.ipErrorText ip)

/-- The hook `askNetModeV.PostClose`. -/
def askNetModeVPostClose (w : Console) : Console :=
  if w.installData.NetworkMode = "" then
    { w with installData.NetworkMode := networkModeDHCP }
  else w

/-- The closure `closeAll`: closes the five network panels and their validator
panel; closing the network-mode panel runs its post-close hook. -/
def closeAll (w : Console) : Console :=
  { askNetModeVPostClose w with
    networkValidator := "",
    ui := hide (hide (hide (hide (hide w.ui .askNetworkModePanel) .hostNamePanel)
      .addressPanel) .gatewayPanel) .dnsServersPanel }

/-- The closure `goBack`. -/
def goBack (w : Console) : Console :=
  showNext (closeAll w) [.networkPanel]

/-- The Enter binding of `askCreateV`. -/
def askCreateVEnter (w : Console) (selected : String) : Console :=
  showNext { hidePanel w .askCreatePanel with
      config.InstallMode := selected, installData.InstallMode := selected }
    [.diskPanel]

/-- The Enter binding of `diskV`. -/
def diskVEnter (w : Console) (device : String) : Console :=
  let w1 := { hidePanel w .diskPanel with
                installData.Device := device,
                config.Install := some ⟨device, "", false⟩ }
  if w1.config.InstallMode = modeCreate then showNext w1 [.tokenPanel]
  else showNext w1 [.serverURLPanel]

/-- The Esc binding of `diskV`. -/
def diskVEsc (w : Console) : Console :=
  showNext (hidePanel w .diskPanel) [.askCreatePanel]

/-- The goroutine started by the Enter binding of `serverURLV`, given the
outcome of `validateInsecureURL(pingServerURL)`. -/
def serverURLProbe (fmtServerURL serverURL : String) (ping : Option String) : List GoStep :=
  match ping with
  | some e =>
    [.spinnerStop true e,
     .update (fun w => showNext w [.serverURLPanel])]
  | none =>
    [.spinnerStop false "",
     .assign (fun w => { w with config.ServerURL := fmtServerURL }),
     .assign (fun w => { w with installData.ServerURL := serverURL }),
     .update (fun w => showNext w [.tokenPanel])]

/-- The Enter binding of `serverURLV` together with the goroutine it starts.
While the probe runs the spinner panel holds the focus and binds no key, so no
other handler runs before the probe's update. -/
def serverURLVEnter (env : Env) (w : Console) (serverURL : String)
    (ping : Option String) : Console :=
  if serverURL = "" then { w with validator := "Management address is required" }
  else
    runGoroutine
      (startSpinner w (checkingText env (env.getFormattedServerURL serverURL ++ "/ping")))
      (serverURLProbe (env.getFormattedServerURL serverURL) serverURL ping)

/-- The Esc binding of `serverURLV`; closing the panel runs `serverURLV.PostClose`,
which closes the spinner panel. -/
def serverURLVEsc (w : Console) : Console :=
  showNext (closeSpinner (hidePanel w .serverURLPanel)) [.diskPanel]

/-- The Enter binding of `tokenV`. -/
def tokenVEnter (w : Console) (token : String) : Console :=
  if token = "" then { w with validator := "Cluster token is required" }
  else
    showNext { hidePanel w .tokenPanel with config.Token := token, installData.Token := token }
      [.passwordConfirmPanel, .passwordPanel]

/-- The Esc binding of `tokenV`. -/
def tokenVEsc (w : Console) : Console :=
  if w.config.InstallMode = modeCreate then showNext (hidePanel w .tokenPanel) [.diskPanel]
  else showNext (hidePanel w .tokenPanel) [.serverURLPanel]

/-- The Esc binding of `passwordV` and of `passwordConfirmV`. -/
def passwordVEsc (w : Console) : Console :=
  showNext (hidePanel (hidePanel w .passwordPanel) .passwordConfirmPanel) [.tokenPanel]

/-- The Enter binding of `passwordConfirmV`. -/
def passwordConfirmVEnter (w : Console) (password1 password2 : String)
    (encrypted : Except String String) : Console :=
  if password1 ≠ password2 then { w with validator := "Password mismatching" }
  else if password1 = "" then { w with validator := "Password is required" }
  else
    let w1 := { hidePanel (hidePanel w .passwordPanel) .passwordConfirmPanel with
                installData.Password := password1 }
    match encrypted with
    | .error e => { w1 with failed := some e }
    | .ok h => showNext { w1 with config.Password := h } [.sshKeyPanel]

/-- Closing `sshKeyV`: the panel is hidden and `sshKeyV.PostClose` closes the
spinner panel. -/
def sshKeyVClose (w : Console) : Console :=
  closeSpinner (hidePanel w .sshKeyPanel)

/-- The goroutine started by the Enter binding of `sshKeyV`, given the outcome
of `getRemoteSSHKeys(url)`. -/
def sshKeyProbe (url : String) (pubKeys : Except String (List String)) : List GoStep :=
  match pubKeys with
  | .error e =>
    [.spinnerStop true e,
     .update (fun w => showNext w [.sshKeyPanel])]
  | .ok keys =>
    [.spinnerStop false "",
     .assign (fun w => { w with config.SSHAuthorizedKeys := keys }),
     .assign (fun w => { w with installData.SSHKeyURL := url }),
     .update (fun w => showNext (sshKeyVClose w) [.networkPanel])]

/-- The Enter binding of `sshKeyV` together with the goroutine it starts. -/
def sshKeyVEnter (env : Env) (w : Console) (url : String)
    (pubKeys : Except String (List String)) : Console :=
  let w1 := { w with config.SSHAuthorizedKeys := [] }
  if url ≠ "" then
    runGoroutine (startSpinner w1 (checkingText env url)) (sshKeyProbe url pubKeys)
  else showNext (sshKeyVClose w1) [.networkPanel]

/-- The Esc binding of `sshKeyV`. -/
def sshKeyVEsc (w : Console) : Console :=
  showNext (sshKeyVClose w) [.passwordConfirmPanel, .passwordPanel]

/-- The Enter binding of `networkV`. -/
def networkVEnter (w : Console) (selected : String) : Console :=
  match stringsSplit selected ';' with
  | [iface, addr] =>
    let w1 := { hidePanel w .networkPanel with
                installData.Interface := iface, installData.Address := addr }
    let w2 := if w1.installData.Interface ≠ "" then
        { w1 with config.ExtraK3sArgs := ["--flannel-iface", w1.installData.Interface] }
      else w1
    if w2.installData.NetworkMode ≠ networkModeStatic then
      showNext w2 [.askNetworkModePanel, .hostNamePanel]
    else
      showNext w2 [.askNetworkModePanel, .dnsServersPanel, .gatewayPanel, .addressPanel,
        .hostNamePanel]
  | _ =>
    { w with failed := some ("failed to parser network view selected data: " ++ selected) }

/-- The loop over `routes` in the Enter binding of `askNetModeV`: every route
with a gateway overwrites `installData.Gateway`. -/
def gatewayFromRoutes (gateway : String) : List (Option String) → String
  | [] => gateway
  | some gw :: rest => gatewayFromRoutes gw rest
  | none :: rest => gatewayFromRoutes gateway rest

/-- The Enter binding of `askNetModeV`. -/
def askNetModeVEnter (w : Console) (selected : String)
    (routes : Except String (List (Option String))) : Console :=
  let w1 := closeAll w
  let w2 := { w1 with installData.NetworkMode := selected }
  if selected ≠ networkModeStatic then
    showNext { w2 with installData.Gateway := "", installData.NetMask := "",
                       installData.DNSServers := "", config.DNSNameservers := [],
                       config.Runcmd := [] }
      [.askNetworkModePanel, .hostNamePanel]
  else
    match routes with
    | .error e => { w2 with failed := some e }
    | .ok rs =>
      showNext { w2 with installData.Gateway := gatewayFromRoutes w2.installData.Gateway rs }
        [.askNetworkModePanel, .dnsServersPanel, .gatewayPanel, .addressPanel,
          .hostNamePanel]

/-- The closure `validateHostName`: the message and the new state. -/
def validateHostName (w : Console) (hostName : String) : String × Console :=
  if !isQualifiedName hostName then (hostName ++ " is not a valid hostname", w)
  else ("", { w with networkValidator := "", config.Hostname := hostName,
                     installData.HostName := hostName })

/-- The ArrowUp binding of `hostNameV`. -/
def hostNameVArrowUp (w : Console) (hostName : String) : Console :=
  let r := validateHostName w hostName
  if r.1 ≠ "" then { r.2 with networkValidator := r.1 }
  else showNext (askNetModeVPostClose (hidePanel r.2 .askNetworkModePanel))
    [.askNetworkModePanel]

/-- The ArrowDown binding of `hostNameV`. -/
def hostNameVArrowDown (w : Console) (hostName : String) : Console :=
  if w.installData.NetworkMode ≠ networkModeStatic then w
  else
    let r := validateHostName w hostName
    if r.1 ≠ "" then { r.2 with networkValidator := r.1 }
    else showNext r.2 [.addressPanel]

/-- The Enter binding of `hostNameV`. -/
def hostNameVEnter (w : Console) (hostName : String) : Console :=
  let r := validateHostName w hostName
  if r.1 ≠ "" then { r.2 with networkValidator := r.1 }
  else if r.2.installData.NetworkMode ≠ networkModeStatic then
    showNext (closeAll r.2) [.proxyPanel]
  else showNext r.2 [.addressPanel]

/-- The text `fmt.Sprintf("%d.%d.%d.%d", mask[0], mask[1], mask[2], mask[3])`. -/
def maskText (mask : List Nat) : String :=
  toString (mask.getD 0 0) ++ "." ++ toString (mask.getD 1 0) ++ "." ++
    toString (mask.getD 2 0) ++ "." ++ toString (mask.getD 3 0)

/-- The closure `validateAddress`: the message and the new state. The input is
stored in `installData.Address` before it is parsed. -/
def validateAddress (env : Env) (w : Console) (address : String) : String × Console :=
  let w1 := { w with installData.Address := address }
  match parseCIDR env.gonet w1.installData.Address with
  | .error e => (e, w1)
  | .ok (ip, mask) =>
    ("", { w1 with networkValidator := "", installData.IP := ip,
                   installData.NetMask := maskText mask })

/-- The closure `addressVConfirm`, bound to Enter and ArrowDown of `addressV`. -/
def addressVConfirm (env : Env) (w : Console) (address : String) : Console :=
  let r := validateAddress env w address
  if r.1 ≠ "" then { r.2 with networkValidator := r.1 }
  else showNext r.2 [.gatewayPanel]

/-- The ArrowUp binding of `addressV`. -/
def addressVArrowUp (env : Env) (w : Console) (address : String) : Console :=
  let r := validateAddress env w address
  if r.1 ≠ "" then { r.2 with networkValidator := r.1 }
  else showNext r.2 [.hostNamePanel]

/-- The closure `validateGateway`: the message and the new state. -/
def validateGateway (env : Env) (w : Console) (gateway : String) : String × Console :=
  match validateIP env gateway with
  | some e => (e, w)
  | none => ("", { w with networkValidator := "", installData.Gateway := gateway })

/-- The closure `gatewayVConfirm`, bound to Enter and ArrowDown of `gatewayV`. -/
def gatewayVConfirm (env : Env) (w : Console) (gateway : String) : Console :=
  let r := validateGateway env w gateway
  if r.1 ≠ "" then { r.2 with networkValidator := r.1 }
  else showNext r.2 [.dnsServersPanel]

/-- The ArrowUp binding of `gatewayV`. -/
def gatewayVArrowUp (env : Env) (w : Console) (gateway : String) : Console :=
  let r := validateGateway env w gateway
  if r.1 ≠ "" then { r.2 with networkValidator := r.1 }
  else showNext r.2 [.addressPanel]

/-- The loop of `validateDNSServers` over the server list: the error of the
first server that `validateIP` rejects. -/
def firstIPError (env : Env) : List String → Option String
  | [] => none
  | x :: rest =>
    match validateIP env x with
    | some e => some e
    | none => firstIPError env rest

/-- The closure `validateDNSServers`: the message and the new state. -/
def validateDNSServers (env : Env) (w : Console) (dnsServers : String) : String × Console :=
  let dnsServerList := stringsSplit dnsServers ','
  match firstIPError env dnsServerList with
  | some e => (e, w)
  | none =>
    let configureNetworkManual :=
      "/sbin/configure-network-manual " ++ w.installData.Interface ++ " " ++
        w.installData.IP ++ " " ++ w.installData.NetMask ++ " " ++
        w.installData.Gateway ++ " " ++ stringsJoin dnsServerList " "
    ("", { w with installData.DNSServers := dnsServers,
                  config.DNSNameservers := dnsServerList,
                  config.Runcmd := [configureNetworkManual] })

/-- The ArrowUp binding of `dnsServersV`. -/
def dnsServersVArrowUp (env : Env) (w : Console) (dnsServers : String) : Console :=
  let r := validateDNSServers env w dnsServers
  if r.1 ≠ "" then { r.2 with networkValidator := r.1 }
  else showNext r.2 [.gatewayPanel]

/-- The Enter binding of `dnsServersV`. -/
def dnsServersVEnter (env : Env) (w : Console) (dnsServers : String) : Console :=
  let r := validateDNSServers env w dnsServers
  if r.1 ≠ "" then { r.2 with networkValidator := r.1 }
  else showNext (closeAll r.2) [.proxyPanel]

/-- Assignment to a key of a Go map. -/
def mapSet (m : List (String × String)) (k v : String) : List (String × String) :=
  (k, v) :: m.filter (fun kv => kv.1 ≠ k)

/-- The Enter binding of `proxyV`. -/
def proxyVEnter (w : Console) (proxy : String) : Console :=
  let w1 := if proxy ≠ "" then
      { w with config.Environment :=
                 mapSet (mapSet w.config.Environment "http_proxy" proxy) "https_proxy" proxy,
               installData.Proxy := proxy }
    else w
  showNext (hidePanel w1 .proxyPanel) [.cloudInitPanel]

/-- The Esc binding of `proxyV`. -/
def proxyVEsc (w : Console) : Console :=
  if w.installData.NetworkMode ≠ networkModeStatic then
    showNext (hidePanel w .proxyPanel) [.askNetworkModePanel, .hostNamePanel]
  else
    showNext (hidePanel w .proxyPanel)
      [.askNetworkModePanel, .hostNamePanel, .addressPanel, .gatewayPanel, .dnsServersPanel]

/-- The Enter binding of `cloudInitV`. Writing through a nil
`cfg.Config.K3OS.Install` is a run-time panic, recorded as a failure. -/
def cloudInitVEnter (w : Console) (configURL : String) (printInstall : Option String) :
    Console :=
  match w.config.Install with
  | none => { w with failed := some "invalid memory address or nil pointer dereference" }
  | some inst =>
    let w1 := { hidePanel w .cloudInitPanel with
                config.Install := some { inst with ConfigURL := configURL },
                installData.ConfigURL := configURL }
    match printInstall with
    | some e => { w1 with failed := some e }
    | none => showNext w1 [.confirmPanel]

/-- The Esc binding of `cloudInitV`. -/
def cloudInitVEsc (w : Console) : Console :=
  showNext (hidePanel w .cloudInitPanel) [.proxyPanel]

/-- The Enter binding of `confirmV`; `customizeConfig`, declared outside these
files, is not followed. -/
def confirmVEnter (w : Console) (confirmed : String) : Console :=
  if confirmed = "no" then { hidePanel w .confirmPanel with focus := none }
  else showNext (hidePanel w .confirmPanel) [.installPanel]

/-- The Esc binding of `confirmV`. -/
def confirmVEsc (w : Console) : Console :=
  showNext (hidePanel w .confirmPanel) [.cloudInitPanel]

/-- The Esc binding of `networkV`. -/
def networkVEsc (w : Console) : Console :=
  showNext (hidePanel w .networkPanel) [.sshKeyPanel]

/-- One key event: the handler bound to the key in the panel that holds the
focus; a key the panel does not bind does nothing, and nothing is handled once
a handler has returned an error. -/
def step (env : Env) (w : Console) (e : Event) : Console :=
  if w.failed.isSome then w
  else
    match w.focus, e.key with
    | some .askCreatePanel, .KeyEnter => askCreateVEnter w e.data
    | some .diskPanel, .KeyEnter => diskVEnter w e.data
    | some .diskPanel, .KeyEsc => diskVEsc w
    | some .serverURLPanel, .KeyEnter => serverURLVEnter env w e.data e.ext.ping
    | some .serverURLPanel, .KeyEsc => serverURLVEsc w
    | some .tokenPanel, .KeyEnter => tokenVEnter w e.data
    | some .tokenPanel, .KeyEsc => tokenVEsc w
    | some .passwordPanel, .KeyEnter => showNext w [.passwordConfirmPanel]
    | some .passwordPanel, .KeyArrowDown => showNext w [.passwordConfirmPanel]
    | some .passwordPanel, .KeyEsc => passwordVEsc w
    | some .passwordConfirmPanel, .KeyArrowUp => showNext w [.passwordPanel]
    | some .passwordConfirmPanel, .KeyEnter =>
      passwordConfirmVEnter w e.password1 e.data e.ext.encrypted
    | some .passwordConfirmPanel, .KeyEsc => passwordVEsc w
    | some .sshKeyPanel, .KeyEnter => sshKeyVEnter env w e.data e.ext.pubKeys
    | some .sshKeyPanel, .KeyEsc => sshKeyVEsc w
    | some .networkPanel, .KeyEnter => networkVEnter w e.data
    | some .networkPanel, .KeyEsc => networkVEsc w
    | some .askNetworkModePanel, .KeyEnter => askNetModeVEnter w e.data e.ext.routes
    | some .askNetworkModePanel, .KeyEsc => goBack w
    | some .hostNamePanel, .KeyArrowUp => hostNameVArrowUp w e.data
    | some .hostNamePanel, .KeyArrowDown => hostNameVArrowDown w e.data
    | some .hostNamePanel, .KeyEnter => hostNameVEnter w e.data
    | some .hostNamePanel, .KeyEsc => goBack w
    | some .addressPanel, .KeyArrowUp => addressVArrowUp env w e.data
    | some .addressPanel, .KeyArrowDown => addressVConfirm env w e.data
    | some .addressPanel, .KeyEnter => addressVConfirm env w e.data
    | some .addressPanel, .KeyEsc => goBack w
    | some .gatewayPanel, .KeyArrowUp => gatewayVArrowUp env w e.data
    | some .gatewayPanel, .KeyArrowDown => gatewayVConfirm env w e.data
    | some .gatewayPanel, .KeyEnter => gatewayVConfirm env w e.data
    | some .gatewayPanel, .KeyEsc => goBack w
    | some .dnsServersPanel, .KeyArrowUp => dnsServersVArrowUp env w e.data
    | some .dnsServersPanel, .KeyEnter => dnsServersVEnter env w e.data
    | some .dnsServersPanel, .KeyEsc => goBack w
    | some .proxyPanel, .KeyEnter => proxyVEnter w e.data
    | some .proxyPanel, .KeyEsc => proxyVEsc w
    | some .cloudInitPanel, .KeyEnter => cloudInitVEnter w e.data e.ext.printInstall
    | some .cloudInitPanel, .KeyEsc => cloudInitVEsc w
    | some .confirmPanel, .KeyEnter => confirmVEnter w e.data
    | some .confirmPanel, .KeyEsc => confirmVEsc w
    | _, _ => w

/-- A sequence of key events, handled in order. -/
def run (env : Env) (w : Console) : List Event → Console
  | [] => w
  | e :: es => run env (step env w e) es

/-! ## Predicates and sample inputs used in the statements -/

/-- The address validator accepted `Address`: it parses as a CIDR block and
`IP` and `NetMask` are the values `validateAddress` derives from it. -/
def addressAccepted (env : Env) (d : InstallData) : Bool :=
  match parseCIDR env.gonet d.Address with
  | .ok (ip, mask) => decide (d.IP = ip) && decide (d.NetMask = maskText mask)
  | .error _ => false

/-- The gateway validator accepts `Gateway`. -/
def gatewayAccepted (env : Env) (d : InstallData) : Bool :=
  (validateIP env d.Gateway).isNone

/-- The DNS validator accepts `DNSServers`: no element of the list is rejected. -/
def dnsServersAccepted (env : Env) (d : InstallData) : Bool :=
  (firstIPError env (stringsSplit d.DNSServers ',')).isNone

/-- The state with the fields that the network-mode confirm resets blanked
out: two states with the same image differ at most in these fields. -/
def forgetStaticFields (w : Console) : Console :=
  { w with installData.Gateway := "", installData.NetMask := "",
           installData.DNSServers := "", config.DNSNameservers := [],
           config.Runcmd := [] }

/-- The n-bit prefix mask of an IPv4 network as four octets, most significant
first: the number `2^32 - 2^(32-n)` written in base 256. -/
def prefixMask (n : Nat) : List Nat :=
  let m := 2 ^ 32 - 2 ^ (32 - n)
  [m / 2 ^ 24 % 256, m / 2 ^ 16 % 256, m / 2 ^ 8 % 256, m % 256]

/-- The text `a.b.c.d/n`. -/
def cidrText (a b c d n : Nat) : String :=
  dottedQuad [a, b, c, d] ++ "/" ++ toString n

/-- An environment for runs on IPv4 input: the IPv6 parser is never reached
with a text it would accept. -/
def sampleEnv : Env :=
  ⟨⟨fun _ => none, fun _ => ""⟩, fun ip => "invalid ip " ++ ip, fun url => url,
    fun text => "\"" ++ text ++ "\""⟩

/-- Collaborator outcomes in which every call succeeds and the interface has
no route with a gateway. -/
def sampleExternal : External :=
  ⟨none, .ok [], .ok "$6$salt$hash", .ok [], none⟩

/-- A key event on the focused panel with the given input. -/
def keyEvent (key : Key) (data : String) : Event :=
  ⟨key, data, data, sampleExternal⟩

/-- From the first panel to the network-mode confirm with dhcp: create mode,
disk, token, the password twice, no SSH key, the interface `eth0`, up from the
host name to the network mode, dhcp. -/
def dhcpPath : List Event :=
  [keyEvent .KeyEnter "create", keyEvent .KeyEnter "/dev/sda", keyEvent .KeyEnter "token",
   keyEvent .KeyEnter "secret", keyEvent .KeyEnter "secret", keyEvent .KeyEnter "",
   keyEvent .KeyEnter "eth0;192.168.1.10/24", keyEvent .KeyArrowUp "harvester-abcde",
   keyEvent .KeyEnter "dhcp"]

/-- From the network-interface panel through the static branch to the proxy
panel. -/
def staticPath : List Event :=
  [keyEvent .KeyEnter "eth0;192.168.1.10/24", keyEvent .KeyArrowUp "harvester-abcde",
   keyEvent .KeyEnter "static", keyEvent .KeyEnter "harvester-abcde",
   keyEvent .KeyEnter "192.168.1.10/24", keyEvent .KeyEnter "192.168.1.1",
   keyEvent .KeyEnter "8.8.8.8,1.1.1.1"]

/-- The wizard with nothing entered yet and the network-interface panel in
focus. -/
def atNetworkPanel : Console :=
  { Console.initial with focus := some .networkPanel, ui.shown := [.networkPanel] }

/-- What the static branch guarantees, by the panel in focus: on the gateway
panel the address is accepted; on the DNS panel the address and the gateway
are; on the proxy, cloud-init and confirm panels, when the mode is static, the
address, the gateway and the DNS servers are. -/
def staticInv (env : Env) (w : Console) : Prop :=
  (w.focus = some .gatewayPanel → addressAccepted env w.installData = true) ∧
  (w.focus = some .dnsServersPanel →
    addressAccepted env w.installData = true ∧ gatewayAccepted env w.installData = true) ∧
  (w.focus = some .proxyPanel ∨ w.focus = some .cloudInitPanel ∨
      w.focus = some .confirmPanel →
    w.installData.NetworkMode = networkModeStatic →
    addressAccepted env w.installData = true ∧ gatewayAccepted env w.installData = true ∧
      dnsServersAccepted env w.installData = true)

/-- The number that the decimal digits `ds` spell after the number `n`. -/
def digitsVal (n : Nat) (ds : List Char) : Nat :=
  ds.foldl (fun a c => a * 10 + (c.toNat - 48)) n

/-- The decimal text of `n` is not empty, consists of digits and spells `n`. -/
def reprOk (n : Nat) : Bool :=
  !(toString n).data.isEmpty && (toString n).data.all isDigit &&
    decide (digitsVal 0 (toString n).data = n)

/-- From the network-interface panel through a complete static pass and back
up to the address panel: proxy, Esc to the DNS panel, up to the gateway, up to
the address. -/
def backToAddressPath : List Event :=
  staticPath ++
  [keyEvent .KeyEsc "", keyEvent .KeyArrowUp "8.8.8.8,1.1.1.1",
   keyEvent .KeyArrowUp "192.168.1.1"]

/-- From the first panel to the confirm-password panel: create mode, disk,
token, the first password entry. -/
def toPasswordConfirmPath : List Event :=
  [keyEvent .KeyEnter "create", keyEvent .KeyEnter "/dev/sda", keyEvent .KeyEnter "token",
   keyEvent .KeyEnter "secret"]

/-- The confirm on the confirm-password panel with both entries "secret" and a
password-hash function that fails. -/
def hashFailsEvent : Event :=
  ⟨.KeyEnter, "secret", "secret", { sampleExternal with encrypted := .error "chpasswd failed" }⟩

/-- The confirm on the confirm-password panel with the entries "x" and "y". -/
def mismatchEvent : Event :=
  ⟨.KeyEnter, "y", "x", sampleExternal⟩

/-- From the first panel to the management-address panel: join mode, disk. -/
def toServerURLPath : List Event :=
  [keyEvent .KeyEnter "join", keyEvent .KeyEnter "/dev/sda"]

/-- The confirm on the management-address panel with "10.0.0.1" and a probe
that fails. -/
def pingFailsEvent : Event :=
  ⟨.KeyEnter, "10.0.0.1", "", { sampleExternal with ping := some "connection refused" }⟩

/-- The confirm on the SSH-key panel with a URL whose retrieval returns one
key. -/
def sshKeysEvent : Event :=
  ⟨.KeyEnter, "https://example.com/user.keys", "",
    { sampleExternal with pubKeys := .ok ["ssh-rsa AAAA user"] }⟩

/-- From the first panel to the SSH-key panel, a successful key retrieval, and
back from the network panel to the SSH-key panel. -/
def sshKeysThenBackPath : List Event :=
  [keyEvent .KeyEnter "create", keyEvent .KeyEnter "/dev/sda", keyEvent .KeyEnter "token",
   keyEvent .KeyEnter "secret", keyEvent .KeyEnter "secret", sshKeysEvent,
   keyEvent .KeyEsc ""]

/-- The confirm on the SSH-key panel with another URL whose retrieval fails. -/
def sshKeysFailEvent : Event :=
  ⟨.KeyEnter, "https://example.com/other.keys", "",
    { sampleExternal with pubKeys := .error "404 Not Found" }⟩

/-- What the claim on `validateDNSServers` expects after an accepted input: the
raw input in `DNSServers`, the elements in the target configuration's DNS
nameservers, and a command list holding the single command made of the program
path, the interface, the IP, the netmask, the gateway and the servers, joined
by single spaces. -/
def withDNSServers (w : Console) (dnsServers : String) : Console :=
  { w with
    installData.DNSServers := dnsServers,
    config.DNSNameservers := stringsSplit dnsServers ',',
    config.Runcmd :=
      [stringsJoin ["/sbin/configure-network-manual", w.installData.Interface,
        w.installData.IP, w.installData.NetMask, w.installData.Gateway,
        stringsJoin (stringsSplit dnsServers ',') " "] " "] }

/-- An earlier static pass with the DNS server "1.1.1.1", back from the proxy
panel to the DNS panel and to the network-interface panel, then dhcp, then
static again: interface, up to the network mode, static, host name, address,
gateway, DNS, Esc on the proxy panel, Esc on the DNS panel, interface, up, dhcp,
up, static. -/
def reenterStaticPath : List Event :=
  [keyEvent .KeyEnter "eth0;192.168.1.10/24", keyEvent .KeyArrowUp "harvester-abcde",
   keyEvent .KeyEnter "static", keyEvent .KeyEnter "harvester-abcde",
   keyEvent .KeyEnter "192.168.1.10/24", keyEvent .KeyEnter "192.168.1.1",
   keyEvent .KeyEnter "1.1.1.1", keyEvent .KeyEsc "", keyEvent .KeyEsc "",
   keyEvent .KeyEnter "eth0;192.168.1.10/24", keyEvent .KeyArrowUp "harvester-abcde",
   keyEvent .KeyEnter "dhcp", keyEvent .KeyArrowUp "harvester-abcde",
   keyEvent .KeyEnter "static"]

/-- One address of an interface, as `i.Addrs()` returns it: a `*net.IPNet`
whose IP is an IPv4 address (host address `a.b.c.d` and prefix length `n`), a
`*net.IPNet` whose IP is not IPv4, or an address of another type. -/
inductive Addr where
  | ipnet4 (a b c d n : Nat)
  | ipnet6 (text : String)
  | other
  deriving DecidableEq, Repr

/-- The octets of an IPv4 address are bytes and its prefix length is at most
32. -/
def Addr.wellFormed : Addr → Bool
  | .ipnet4 a b c d n =>
    decide (a < 256) && decide (b < 256) && decide (c < 256) && decide (d < 256) &&
      decide (n ≤ 32)
  | _ => true

/-- What `getNetworkInterfaceOptions` reads of a `net.Interface`: its name,
whether `Flags&net.FlagLoopback != 0`, and its addresses. -/
structure NetInterface where
  Name : String
  loopback : Bool
  addrs : List Addr
  deriving DecidableEq, Repr

/-- The type `widgets.Option`. -/
structure WidgetOption where
  Value : String
  Text : String
  deriving DecidableEq, Repr

/-- The inner loop of `getNetworkInterfaceOptions`: the texts `ipnet.String()`
of the addresses that are IPv4 networks. -/
def ipv4CIDRs : List Addr → List String
  | [] => []
  | .ipnet4 a b c d n :: rest => cidrText a b c d n :: ipv4CIDRs rest
  | _ :: rest => ipv4CIDRs rest

/-- The option that `getNetworkInterfaceOptions` builds for one interface. -/
def interfaceOption (i : NetInterface) : WidgetOption :=
  let ips := ipv4CIDRs i.addrs
  if ips.length > 0 then
    ⟨i.Name ++ ";" ++ stringsJoin ips ",", i.Name ++ " (" ++ stringsJoin ips "," ++ ")"⟩
  else ⟨i.Name, i.Name⟩

/-- The function `getNetworkInterfaceOptions`, given the interfaces that
`net.Interfaces()` returns: loopback interfaces are skipped. -/
def getNetworkInterfaceOptions (ifaces : List NetInterface) : List WidgetOption :=
  (ifaces.filter (fun i => !i.loopback)).map interfaceOption

/-- An interface with two IPv4 addresses and one IPv6 address. -/
def sampleInterface : NetInterface :=
  ⟨"eth0", false, [.ipnet4 192 168 1 10 24, .ipnet6 "fe80::1/64", .ipnet4 10 0 0 5 8]⟩

/-- The pointer `cfg.Config.K3OS.Install` is not nil and the install section
holds the device recorded in `installData.Device`. -/
def installHoldsDevice (w : Console) : Bool :=
  match w.config.Install with
  | some inst => decide (inst.Device = w.installData.Device)
  | none => false

/-- What holds along the wizard's flow: the install-mode panel or the disk
panel is in focus, or the install section is set and holds the chosen device. -/
def installInv (w : Console) : Prop :=
  w.focus = some .askCreatePanel ∨ w.focus = some .diskPanel ∨ installHoldsDevice w = true

/-- From the first panel to the cloud-init panel: create mode, disk, token, the
password twice, no SSH key, the interface `eth0`, the host name (network mode
left at dhcp), no proxy. -/
def toCloudInitPath : List Event :=
  [keyEvent .KeyEnter "create", keyEvent .KeyEnter "/dev/sda", keyEvent .KeyEnter "token",
   keyEvent .KeyEnter "secret", keyEvent .KeyEnter "secret", keyEvent .KeyEnter "",
   keyEvent .KeyEnter "eth0;192.168.1.10/24", keyEvent .KeyEnter "harvester-abcde",
   keyEvent .KeyEnter ""]

/-- The state `w2` has the install section and the recorded device of `w`. -/
def sameInstall (w w2 : Console) : Prop :=
  w2.config.Install = w.config.Install ∧ w2.installData.Device = w.installData.Device

/-- The device the user selected on the disk panel: the data of the event at
which the disk panel's confirm last ran while `es` was handled from `w`
(`chosen` is the selection made before `es`, `none` when the confirm has not
run). It follows the dispatch of `step` and does not look at what the confirm
stores. -/
def chosenDevice (env : Env) (w : Console) (chosen : Option String) :
    List Event → Option String
  | [] => chosen
  | e :: es =>
    chosenDevice env (step env w e)
      (if w.failed.isSome then chosen
       else
         match w.focus, e.key with
         | some .diskPanel, .KeyEnter => some e.data
         | _, _ => chosen)
      es

/-- What holds along the wizard's flow for the selection `chosen` made so far:
the install-mode panel or the disk panel is in focus, or the disk panel's
confirm has run and `installData.Device` is the device selected there. -/
def chosenInv (w : Console) (chosen : Option String) : Prop :=
  w.focus = some .askCreatePanel ∨ w.focus = some .diskPanel ∨
    chosen = some w.installData.Device

/-! ## Theorems: status poller -/

theorem wrapColor_data (s : String) (color : Nat) :
    (wrapColor s color).data =
      '\x1b' :: '[' :: '3' :: ((toString color).data ++ (';' :: '7' :: 'm' :: (s.data ++
        ['\x1b', '[', '0', 'm']))) := by
  simp [wrapColor, String.data_append]

theorem wrapColor_ne_settingUp (s : String) (color : Nat) :
    wrapColor s color ≠ statusSettingUp := by
  intro h
  have h2 := congrArg String.data h
  rw [wrapColor_data] at h2
  simp [statusSettingUp] at h2

theorem statusAfterInstall_ne_settingUp (p : Probes) :
    statusAfterInstall p ≠ statusSettingUp := by
  unfold statusAfterInstall
  split
  · exact wrapColor_ne_settingUp _ _
  · simp only []
    split <;> exact wrapColor_ne_settingUp _ _

theorem getHarvesterStatus_installed (current : State) (p : Probes)
    (h : current.installed = true) :
    getHarvesterStatus current p = (statusAfterInstall p, current) := by
  simp [getHarvesterStatus, h]

/-- C1. Once `installed` is recorded, no tick returns the SettingUp status and
`installed` stays true: for a single tick with any probe outcomes, and along
any run of ticks. -/
theorem installed_never_regresses (current : State) (h : current.installed = true) :
    (∀ p : Probes, (getHarvesterStatus current p).1 ≠ statusSettingUp ∧
        (getHarvesterStatus current p).2.installed = true) ∧
    (∀ ps : List Probes, (∀ s ∈ (pollTicks current ps).1, s ≠ statusSettingUp) ∧
        (pollTicks current ps).2.installed = true) := by
  constructor
  · intro p
    rw [getHarvesterStatus_installed current p h]
    exact ⟨statusAfterInstall_ne_settingUp p, h⟩
  · intro ps
    induction ps generalizing current with
    | nil => simp [pollTicks, h]
    | cons p ps ih =>
      have hstep := getHarvesterStatus_installed current p h
      simp only [pollTicks, hstep]
      have := ih current h
      refine ⟨?_, this.2⟩
      intro s hs
      rcases List.mem_cons.mp hs with rfl | hs
      · exact statusAfterInstall_ne_settingUp p
      · exact this.1 s hs

/-- Witness for C1: an installed first host whose probes all fail. -/
theorem installed_never_regresses_witness :
    (∀ p : Probes, (getHarvesterStatus ⟨true, true⟩ p).1 ≠ statusSettingUp ∧
        (getHarvesterStatus ⟨true, true⟩ p).2.installed = true) ∧
    (∀ ps : List Probes, (∀ s ∈ (pollTicks ⟨true, true⟩ ps).1, s ≠ statusSettingUp) ∧
        (pollTicks ⟨true, true⟩ ps).2.installed = true) :=
  installed_never_regresses ⟨true, true⟩ rfl

/-- C2 (as stated, refuted). On a host that is not the first host the install
gate is skipped: with `installed = false` and the node-management layer not
ready, the tick does not return SettingUp. -/
theorem settingUp_gate_counterexample :
    (⟨false, false⟩ : State).installed = false ∧
    (⟨false, false, false, ⟨"", none⟩⟩ : Probes).k8sIsReady = false ∧
    (getHarvesterStatus ⟨false, false⟩ ⟨false, false, false, ⟨"", none⟩⟩).1
      = wrapColor statusUnknown colorYellow ∧
    (getHarvesterStatus ⟨false, false⟩ ⟨false, false, false, ⟨"", none⟩⟩).1
      ≠ statusSettingUp := by
  refine ⟨rfl, rfl, ?_, ?_⟩
  · simp [getHarvesterStatus, statusAfterInstall]
  · have h : getHarvesterStatus ⟨false, false⟩ ⟨false, false, false, ⟨"", none⟩⟩
        = (statusAfterInstall ⟨false, false, false, ⟨"", none⟩⟩, ⟨false, false⟩) := by
      simp [getHarvesterStatus]
    rw [h]
    exact statusAfterInstall_ne_settingUp ⟨false, false, false, ⟨"", none⟩⟩

/-- C2 (amended). On the first host, while `installed = false` and on this
tick the node-management layer is not ready or the install job has not
succeeded, the tick returns the SettingUp status and leaves the state as it
was, whatever the node and pod probes would report. -/
theorem settingUp_wins_on_first_host (current : State) (p : Probes)
    (hfirst : current.firstHost = true) (hinst : current.installed = false)
    (hprobe : p.k8sIsReady = false ∨ p.chartIsInstalled = false) :
    getHarvesterStatus current p = (statusSettingUp, current) := by
  rcases hprobe with h | h <;> simp [getHarvesterStatus, hfirst, hinst, h]

/-- Witness for C2 (amended): the first host before the cluster is up. -/
theorem settingUp_wins_on_first_host_witness :
    getHarvesterStatus ⟨false, true⟩ ⟨false, false, true, ⟨"Running", none⟩⟩
      = (statusSettingUp, ⟨false, true⟩) :=
  settingUp_wins_on_first_host ⟨false, true⟩ ⟨false, false, true, ⟨"Running", none⟩⟩
    rfl rfl (Or.inl rfl)

theorem hasInfix_self (pat : List Char) : hasInfix pat pat = true := by
  cases pat with
  | nil => rfl
  | cons c cs => simp [hasInfix]

theorem hasInfix_iff (pat l : List Char) : hasInfix pat l = true ↔ pat <:+: l := by
  induction l with
  | nil => simp [hasInfix, List.infix_nil, List.isEmpty_iff]
  | cons c cs ih => simp [hasInfix, ih, List.infix_cons_iff, List.isPrefixOf_iff_prefix]

theorem wrapColor_yellow_ne_green (a b : String) :
    wrapColor a colorYellow ≠ wrapColor b colorGreen := by
  intro h
  have h2 := congrArg String.data h
  rw [wrapColor_data, wrapColor_data] at h2
  have h3 : (toString colorYellow).data = ['3'] := by decide
  have h4 : (toString colorGreen).data = ['2'] := by decide
  rw [h3, h4] at h2
  simp at h2

theorem wrapColor_yellow_ne_red (a b : String) :
    wrapColor a colorYellow ≠ wrapColor b colorRed := by
  intro h
  have h2 := congrArg String.data h
  rw [wrapColor_data, wrapColor_data] at h2
  have h3 : (toString colorYellow).data = ['3'] := by decide
  have h4 : (toString colorRed).data = ['1'] := by decide
  rw [h3, h4] at h2
  simp at h2

theorem wrapColor_ne_running (s : String) (color : Nat) :
    wrapColor s color ≠ statusRunning := by
  intro h
  have h2 := congrArg String.data h
  rw [wrapColor_data] at h2
  simp [statusRunning] at h2

theorem getHarvesterStatus_reaches (current : State) (p : Probes)
    (h : reachesPodStep current p = true) :
    (getHarvesterStatus current p).1 = statusAfterInstall p ∧ p.nodeIsPresent = true := by
  simp only [reachesPodStep, Bool.and_eq_true, Bool.not_eq_true'] at h
  obtain ⟨hgate, hnode⟩ := h
  refine ⟨?_, hnode⟩
  unfold getHarvesterStatus
  by_cases h1 : (current.firstHost && !current.installed) = true
  · rw [if_pos h1]
    have h2 : (!p.k8sIsReady || !p.chartIsInstalled) = false := by
      rw [h1] at hgate
      simpa using hgate
    simp [h2]
  · rw [if_neg h1]

/-- The pod-phase step on a query that succeeded with summary `s`. -/
theorem statusAfterInstall_ok (p : Probes) (hnode : p.nodeIsPresent = true)
    (herr : p.podCmd.err = none) :
    statusAfterInstall p =
      if stringsContains p.podCmd.output statusRunning then wrapColor statusRunning colorGreen
      else wrapColor p.podCmd.output colorYellow := by
  unfold statusAfterInstall harvesterPodStatus
  rw [herr]
  simp only [hnode, Bool.not_true, Bool.false_eq_true, if_false]
  by_cases hc : stringsContains p.podCmd.output statusRunning = true
  · simp [hc]
  · have hne : p.podCmd.output ≠ statusRunning := by
      intro heq
      apply hc
      rw [heq]
      exact hasInfix_self _
    simp [hc, hne]

/-- The pod-phase step on a query that failed: the red-wrapped error text is
not equal to `statusRunning`, so it is wrapped once more, in yellow. -/
theorem statusAfterInstall_err (p : Probes) (hnode : p.nodeIsPresent = true)
    (e : String) (herr : p.podCmd.err = some e) :
    statusAfterInstall p =
      wrapColor (wrapColor (errorsWrap e p.podCmd.output) colorRed) colorYellow := by
  unfold statusAfterInstall harvesterPodStatus
  rw [herr]
  simp only [hnode, Bool.not_true, Bool.false_eq_true, if_false]
  rw [if_neg (wrapColor_ne_running _ _)]

/-- C3 (as stated, refuted). With the install complete, the node registered
and a successful pod query whose summary is "Pending Running", the tick shows
a green "Running" and not the raw summary in yellow. -/
theorem mixed_phases_counterexample :
    reachesPodStep ⟨true, true⟩ ⟨true, true, true, ⟨"Pending Running", none⟩⟩ = true ∧
    (⟨"Pending Running", none⟩ : CmdResult).output ≠ "Running" ∧
    (getHarvesterStatus ⟨true, true⟩ ⟨true, true, true, ⟨"Pending Running", none⟩⟩).1
      = wrapColor "Running" colorGreen ∧
    (getHarvesterStatus ⟨true, true⟩ ⟨true, true, true, ⟨"Pending Running", none⟩⟩).1
      ≠ wrapColor "Pending Running" colorYellow := by
  have h := getHarvesterStatus_reaches ⟨true, true⟩
    ⟨true, true, true, ⟨"Pending Running", none⟩⟩ rfl
  have h2 := statusAfterInstall_ok ⟨true, true, true, ⟨"Pending Running", none⟩⟩ rfl rfl
  have h3 : stringsContains "Pending Running" statusRunning = true := by decide
  rw [h3, if_pos rfl] at h2
  refine ⟨rfl, by decide, ?_, ?_⟩
  · rw [h.1, h2]; rfl
  · rw [h.1, h2]
    exact fun hEq => wrapColor_yellow_ne_green _ _ hEq.symm

/-- C3 (amended). On a tick that reaches the pod-phase step with a successful
query whose summary is `s`: the displayed status is the green "Running" if and
only if "Running" occurs in `s` as a contiguous block of characters, and for
every `s` in which it does not occur the displayed status is `s` itself in
yellow. -/
theorem running_iff_summary_contains (current : State) (p : Probes)
    (hreach : reachesPodStep current p = true) (herr : p.podCmd.err = none) :
    ((getHarvesterStatus current p).1 = wrapColor statusRunning colorGreen ↔
      statusRunning.data <:+: p.podCmd.output.data) ∧
    (¬ statusRunning.data <:+: p.podCmd.output.data →
      (getHarvesterStatus current p).1 = wrapColor p.podCmd.output colorYellow) := by
  obtain ⟨h1, hnode⟩ := getHarvesterStatus_reaches current p hreach
  rw [h1, statusAfterInstall_ok p hnode herr]
  have hiff : stringsContains p.podCmd.output statusRunning = true ↔
      statusRunning.data <:+: p.podCmd.output.data := hasInfix_iff _ _
  by_cases hc : stringsContains p.podCmd.output statusRunning = true
  · rw [if_pos hc]
    exact ⟨⟨fun _ => hiff.mp hc, fun _ => rfl⟩, fun hn => absurd (hiff.mp hc) hn⟩
  · rw [if_neg hc]
    exact ⟨⟨fun h => absurd h (wrapColor_yellow_ne_green _ _), fun h => absurd (hiff.mpr h) hc⟩,
      fun _ => rfl⟩

/-- Witness for C3 (amended): a summary made of the single phase "Pending". -/
theorem running_iff_summary_contains_witness :
    ((getHarvesterStatus ⟨true, true⟩ ⟨true, true, true, ⟨"Pending", none⟩⟩).1
        = wrapColor statusRunning colorGreen ↔
      statusRunning.data <:+: "Pending".data) ∧
    (¬ statusRunning.data <:+: "Pending".data →
      (getHarvesterStatus ⟨true, true⟩ ⟨true, true, true, ⟨"Pending", none⟩⟩).1
        = wrapColor "Pending" colorYellow) :=
  running_iff_summary_contains ⟨true, true⟩ ⟨true, true, true, ⟨"Pending", none⟩⟩ rfl rfl

/-- C4 (the code at the failing input). The pod query fails with
"exit status 1" after printing "boom": the returned string is the red-wrapped
error wrapped a second time in yellow, not the red-wrapped error alone. -/
theorem pod_error_is_wrapped_twice :
    reachesPodStep ⟨true, true⟩ ⟨true, true, true, ⟨"boom", some "exit status 1"⟩⟩ = true ∧
    (harvesterPodStatus ⟨"boom", some "exit status 1"⟩).2 = some "boom: exit status 1" ∧
    (getHarvesterStatus ⟨true, true⟩ ⟨true, true, true, ⟨"boom", some "exit status 1"⟩⟩).1
      = "\x1b[33;7m\x1b[31;7mboom: exit status 1\x1b[0m\x1b[0m" ∧
    (getHarvesterStatus ⟨true, true⟩ ⟨true, true, true, ⟨"boom", some "exit status 1"⟩⟩).1
      ≠ wrapColor "boom: exit status 1" colorRed := by
  have h := getHarvesterStatus_reaches ⟨true, true⟩
    ⟨true, true, true, ⟨"boom", some "exit status 1"⟩⟩ rfl
  have h2 := statusAfterInstall_err ⟨true, true, true, ⟨"boom", some "exit status 1"⟩⟩ rfl
    "exit status 1" rfl
  refine ⟨rfl, by decide, ?_, ?_⟩
  · rw [h.1, h2]; decide
  · rw [h.1, h2]
    exact wrapColor_yellow_ne_red _ _

/-- C5 (the code at the failing input). On the first host before the cluster
is up the tick returns the bare text "Setting up Harvester", without the
yellow reverse-video wrapping that the Unknown status gets. -/
theorem settingUp_is_not_coloured :
    (getHarvesterStatus ⟨false, true⟩ ⟨false, false, false, ⟨"", none⟩⟩).1
      = "Setting up Harvester" ∧
    (getHarvesterStatus ⟨false, true⟩ ⟨false, false, false, ⟨"", none⟩⟩).1
      ≠ wrapColor statusSettingUp colorYellow ∧
    (getHarvesterStatus ⟨true, true⟩ ⟨false, false, false, ⟨"", none⟩⟩).1
      = wrapColor statusUnknown colorYellow := by
  refine ⟨by simp [getHarvesterStatus, statusSettingUp], ?_, ?_⟩
  · have h : (getHarvesterStatus ⟨false, true⟩ ⟨false, false, false, ⟨"", none⟩⟩).1
        = statusSettingUp := by simp [getHarvesterStatus]
    rw [h]
    exact fun hEq => wrapColor_ne_settingUp _ _ hEq.symm
  · simp [getHarvesterStatus, statusAfterInstall]

/-- C6. Running the poll tick twice in succession with the same probe outcomes
returns the same string both times, from every initial state, the tick on
which `installed` flips included; the second run leaves the state as the
first one left it. -/
theorem poll_tick_idempotent (current : State) (p : Probes) :
    (getHarvesterStatus (getHarvesterStatus current p).2 p).1
      = (getHarvesterStatus current p).1 ∧
    (getHarvesterStatus (getHarvesterStatus current p).2 p).2
      = (getHarvesterStatus current p).2 := by
  obtain ⟨installed, firstHost⟩ := current
  cases installed <;> cases firstHost <;>
    cases hk : p.k8sIsReady <;> cases hc : p.chartIsInstalled <;>
      simp [getHarvesterStatus, hk, hc]

/-! ## Theorems: network-mode branch of the wizard -/

theorem step_askNetMode_enter (env : Env) (w : Console) (e : Event)
    (hfail : w.failed = none) (hfocus : w.focus = some .askNetworkModePanel)
    (hkey : e.key = .KeyEnter) :
    step env w e = askNetModeVEnter w e.data e.ext.routes := by
  simp [step, hfail, hfocus, hkey]

/-- C7 (as stated, refuted). After the path from the first panel to the
network-mode confirm with dhcp, `NetworkMode` is dhcp and `Address` still
holds the address of the interface chosen on the network panel. -/
theorem dhcp_keeps_address_counterexample :
    (run sampleEnv Console.initial dhcpPath).failed = none ∧
    (run sampleEnv Console.initial dhcpPath).installData.NetworkMode = networkModeDHCP ∧
    (run sampleEnv Console.initial dhcpPath).installData.Address = "192.168.1.10/24" ∧
    (run sampleEnv Console.initial dhcpPath).installData.Address ≠ "" := by
  decide

/-- C7 (amended). Confirming the network-mode panel with dhcp sets
`NetworkMode` to dhcp and leaves `NetMask`, `Gateway` and `DNSServers` empty.
Nothing is stated about `Address`, which this confirm does not write. -/
theorem dhcp_confirm_clears_mask_gateway_dns (env : Env) (w : Console) (e : Event)
    (hfail : w.failed = none) (hfocus : w.focus = some .askNetworkModePanel)
    (hkey : e.key = .KeyEnter) (hdata : e.data = networkModeDHCP) :
    (step env w e).installData.NetworkMode = networkModeDHCP ∧
    (step env w e).installData.NetMask = "" ∧
    (step env w e).installData.Gateway = "" ∧
    (step env w e).installData.DNSServers = "" := by
  rw [step_askNetMode_enter env w e hfail hfocus hkey, hdata]
  have hne : networkModeDHCP ≠ networkModeStatic := by decide
  simp only [askNetModeVEnter, hne, ne_eq, not_false_eq_true, if_true, showNext,
    List.getLast?, List.getLast, closeAll, askNetModeVPostClose]
  exact ⟨trivial, trivial, trivial, trivial⟩

/-- Witness for C7 (amended): the dhcp confirm after a completed static pass. -/
theorem dhcp_confirm_clears_mask_gateway_dns_witness :
    (step sampleEnv { run sampleEnv atNetworkPanel staticPath with
        focus := some .askNetworkModePanel } (keyEvent .KeyEnter "dhcp")).installData.NetworkMode
      = networkModeDHCP ∧
    (step sampleEnv { run sampleEnv atNetworkPanel staticPath with
        focus := some .askNetworkModePanel } (keyEvent .KeyEnter "dhcp")).installData.NetMask
      = "" ∧
    (step sampleEnv { run sampleEnv atNetworkPanel staticPath with
        focus := some .askNetworkModePanel } (keyEvent .KeyEnter "dhcp")).installData.Gateway
      = "" ∧
    (step sampleEnv { run sampleEnv atNetworkPanel staticPath with
        focus := some .askNetworkModePanel } (keyEvent .KeyEnter "dhcp")).installData.DNSServers
      = "" :=
  dhcp_confirm_clears_mask_gateway_dns sampleEnv
    { run sampleEnv atNetworkPanel staticPath with focus := some .askNetworkModePanel }
    (keyEvent .KeyEnter "dhcp") (by decide) rfl rfl rfl

theorem askNetModeVEnter_forget (w : Console) (selected : String)
    (routes : Except String (List (Option String))) (hsel : selected ≠ networkModeStatic) :
    askNetModeVEnter w selected routes
      = askNetModeVEnter (forgetStaticFields w) selected routes := by
  simp only [askNetModeVEnter, hsel, ne_eq, not_false_eq_true, if_true, showNext,
    List.getLast?, List.getLast, closeAll, askNetModeVPostClose, forgetStaticFields]
  split <;> rfl

/-- C9. Confirming the network-mode panel with a mode other than static, from
any state, leaves `Gateway`, `NetMask` and `DNSServers` empty and the target
configuration's DNS nameservers and command list empty; the state after the
confirm, and so every later run of the wizard (a re-entry into the static
branch included), is the same whatever these five fields held before. -/
theorem non_static_confirm_resets_static_fields (env : Env) (w : Console) (e : Event)
    (hfail : w.failed = none) (hfocus : w.focus = some .askNetworkModePanel)
    (hkey : e.key = .KeyEnter) (hdata : e.data ≠ networkModeStatic) :
    ((step env w e).installData.Gateway = "" ∧
     (step env w e).installData.NetMask = "" ∧
     (step env w e).installData.DNSServers = "" ∧
     (step env w e).config.DNSNameservers = [] ∧
     (step env w e).config.Runcmd = []) ∧
    (∀ w2 : Console, forgetStaticFields w2 = forgetStaticFields w →
      ∀ es : List Event, run env w2 (e :: es) = run env w (e :: es)) := by
  constructor
  · rw [step_askNetMode_enter env w e hfail hfocus hkey]
    simp only [askNetModeVEnter, hdata, ne_eq, not_false_eq_true, if_true, showNext,
      List.getLast?, List.getLast, closeAll, askNetModeVPostClose]
    simp
  · intro w2 h es
    have hfail2 : w2.failed = none := by
      have := congrArg Console.failed h
      simpa [forgetStaticFields, hfail] using this
    have hfocus2 : w2.focus = some .askNetworkModePanel := by
      have := congrArg Console.focus h
      simpa [forgetStaticFields, hfocus] using this
    simp only [run]
    rw [step_askNetMode_enter env w e hfail hfocus hkey,
      step_askNetMode_enter env w2 e hfail2 hfocus2 hkey,
      askNetModeVEnter_forget w _ _ hdata, askNetModeVEnter_forget w2 _ _ hdata, h]

/-- Witness for C9: the dhcp confirm after a completed static pass. -/
theorem non_static_confirm_resets_static_fields_witness :
    ((step sampleEnv { run sampleEnv atNetworkPanel staticPath with
        focus := some .askNetworkModePanel } (keyEvent .KeyEnter "dhcp")).installData.Gateway
        = "" ∧
     (step sampleEnv { run sampleEnv atNetworkPanel staticPath with
        focus := some .askNetworkModePanel } (keyEvent .KeyEnter "dhcp")).installData.NetMask
        = "" ∧
     (step sampleEnv { run sampleEnv atNetworkPanel staticPath with
        focus := some .askNetworkModePanel } (keyEvent .KeyEnter "dhcp")).installData.DNSServers
        = "" ∧
     (step sampleEnv { run sampleEnv atNetworkPanel staticPath with
        focus := some .askNetworkModePanel } (keyEvent .KeyEnter "dhcp")).config.DNSNameservers
        = [] ∧
     (step sampleEnv { run sampleEnv atNetworkPanel staticPath with
        focus := some .askNetworkModePanel } (keyEvent .KeyEnter "dhcp")).config.Runcmd
        = []) ∧
    (∀ w2 : Console,
      forgetStaticFields w2 = forgetStaticFields { run sampleEnv atNetworkPanel staticPath with
        focus := some .askNetworkModePanel } →
      ∀ es : List Event, run sampleEnv w2 (keyEvent .KeyEnter "dhcp" :: es)
        = run sampleEnv { run sampleEnv atNetworkPanel staticPath with
            focus := some .askNetworkModePanel } (keyEvent .KeyEnter "dhcp" :: es)) :=
  non_static_confirm_resets_static_fields sampleEnv
    { run sampleEnv atNetworkPanel staticPath with focus := some .askNetworkModePanel }
    (keyEvent .KeyEnter "dhcp") (by decide) rfl rfl (by decide)

/-! ## Theorems: the static branch reaches the proxy panel validated -/

theorem string_append_ne_empty_left (a b : String) (h : a ≠ "") : a ++ b ≠ "" := by
  intro hab
  apply h
  have h2 := congrArg String.data hab
  rw [String.data_append] at h2
  have h3 : a.data = [] := (List.append_eq_nil.mp h2).1
  exact String.ext h3

theorem string_append_ne_empty_right (a b : String) (h : b ≠ "") : a ++ b ≠ "" := by
  intro hab
  apply h
  have h2 := congrArg String.data hab
  rw [String.data_append] at h2
  have h3 : b.data = [] := (List.append_eq_nil.mp h2).2
  exact String.ext h3

theorem parseCIDR_error (g : GoNet) (s e : String) (h : parseCIDR g s = .error e) :
    e ≠ "" := by
  have key : e = "invalid CIDR address: " ++ s := by
    unfold parseCIDR at h
    simp only [] at h
    split at h
    · injection h with h; exact h.symm
    · split at h
      · split at h
        · injection h with h; exact h.symm
        · cases h
      · split at h
        · injection h with h; exact h.symm
        · split at h
          · injection h with h; exact h.symm
          · cases h
  rw [key]
  exact string_append_ne_empty_left _ _ (by decide)

theorem validateAddress_cases (env : Env) (w : Console) (a : String) :
    (∃ m, m ≠ "" ∧ validateAddress env w a = (m, { w with installData.Address := a })) ∨
    (∃ ip mask, parseCIDR env.gonet a = .ok (ip, mask) ∧
      validateAddress env w a =
        ("", { w with installData.Address := a, networkValidator := "", installData.IP := ip, installData.NetMask := maskText mask })) := by
  unfold validateAddress
  simp only []
  cases hp : parseCIDR env.gonet a with
  | error m => exact Or.inl ⟨m, parseCIDR_error _ _ _ hp, rfl⟩
  | ok r => obtain ⟨ip, mask⟩ := r; exact Or.inr ⟨ip, mask, rfl, rfl⟩

theorem validateGateway_cases (env : Env) (hmsg : ∀ s, env.ipErrorText s ≠ "")
    (w : Console) (g : String) :
    (∃ m, m ≠ "" ∧ validateGateway env w g = (m, w)) ∨
    (validateIP env g = none ∧
      validateGateway env w g =
        ("", { w with networkValidator := "", installData.Gateway := g })) := by
  unfold validateGateway
  cases hp : validateIP env g with
  | some m =>
    refine Or.inl ⟨m, ?_, rfl⟩
    unfold validateIP at hp
    split at hp
    · cases hp
    · injection hp with hp; rw [← hp]; exact hmsg g
  | none => exact Or.inr ⟨rfl, rfl⟩

theorem firstIPError_ne_empty (env : Env) (hmsg : ∀ s, env.ipErrorText s ≠ "")
    (l : List String) (m : String) (h : firstIPError env l = some m) : m ≠ "" := by
  induction l with
  | nil => cases h
  | cons x rest ih =>
    unfold firstIPError at h
    cases hp : validateIP env x with
    | some e =>
      rw [hp] at h
      injection h with h
      unfold validateIP at hp
      split at hp
      · cases hp
      · injection hp with hp; rw [← h, ← hp]; exact hmsg x
    | none => rw [hp] at h; exact ih h

theorem validateDNSServers_cases (env : Env) (hmsg : ∀ s, env.ipErrorText s ≠ "")
    (w : Console) (d : String) :
    (∃ m, m ≠ "" ∧ validateDNSServers env w d = (m, w)) ∨
    (firstIPError env (stringsSplit d ',') = none ∧
      (validateDNSServers env w d).1 = "" ∧
      (validateDNSServers env w d).2.installData = { w.installData with DNSServers := d } ∧
      (validateDNSServers env w d).2.focus = w.focus ∧
      (validateDNSServers env w d).2.failed = w.failed) := by
  unfold validateDNSServers
  simp only []
  cases hp : firstIPError env (stringsSplit d ',') with
  | some m => exact Or.inl ⟨m, firstIPError_ne_empty env hmsg _ _ hp, rfl⟩
  | none => exact Or.inr ⟨rfl, rfl, rfl, rfl, rfl⟩

theorem validateHostName_cases (w : Console) (h : String) :
    (∃ m, m ≠ "" ∧ validateHostName w h = (m, w)) ∨
    validateHostName w h =
      ("", { w with networkValidator := "", config.Hostname := h, installData.HostName := h }) := by
  unfold validateHostName
  split
  · exact Or.inl ⟨_, string_append_ne_empty_right _ _ (by decide), rfl⟩
  · exact Or.inr rfl

theorem dhcp_ne_static : networkModeDHCP ≠ networkModeStatic := by decide

theorem static_ne_empty : networkModeStatic ≠ "" := by decide

theorem staticInv_congr (env : Env) (w w2 : Console) (hf : w2.focus = w.focus)
    (hd : w2.installData = w.installData) (h : staticInv env w) : staticInv env w2 := by
  unfold staticInv at *
  rw [hf, hd]
  exact h

theorem staticInv_free (env : Env) (w : Console)
    (h1 : w.focus ≠ some .gatewayPanel) (h2 : w.focus ≠ some .dnsServersPanel)
    (h3 : w.focus ≠ some .proxyPanel) (h4 : w.focus ≠ some .cloudInitPanel)
    (h5 : w.focus ≠ some .confirmPanel) : staticInv env w := by
  refine ⟨fun h => absurd h h1, fun h => absurd h h2, fun h => ?_⟩
  rcases h with h | h | h
  · exact absurd h h3
  · exact absurd h h4
  · exact absurd h h5

theorem hostName_preserves (env : Env) (w : Console) (data : String)
    (hinv : staticInv env w) :
    staticInv env (hostNameVEnter w data) ∧ staticInv env (hostNameVArrowUp w data) ∧
      staticInv env (hostNameVArrowDown w data) := by
  unfold hostNameVEnter hostNameVArrowUp hostNameVArrowDown
  rcases validateHostName_cases w data with ⟨m, hm, hv⟩ | hv
  · rw [hv]
    simp only [ne_eq, hm, not_false_eq_true, if_true]
    refine ⟨staticInv_congr env w _ rfl rfl hinv, staticInv_congr env w _ rfl rfl hinv, ?_⟩
    split
    · exact hinv
    · exact staticInv_congr env w _ rfl rfl hinv
  · rw [hv]
    simp only [ne_eq, not_true_eq_false, if_false]
    refine ⟨?_, ?_, ?_⟩
    · split
      · rename_i hmode
        refine ⟨by simp [showNext], by simp [showNext], ?_⟩
        intro _ hstatic
        exfalso
        simp only [showNext, List.getLast?, List.getLast, closeAll, askNetModeVPostClose] at hstatic
        split at hstatic
        · exact dhcp_ne_static hstatic
        · exact hmode hstatic
      · apply staticInv_free <;> simp [showNext]
    · apply staticInv_free <;> simp [showNext]
    · split
      · exact hinv
      · apply staticInv_free <;> simp [showNext]

theorem address_preserves (env : Env) (w : Console) (data : String)
    (hfo : w.focus = some .addressPanel) :
    staticInv env (addressVConfirm env w data) ∧ staticInv env (addressVArrowUp env w data) := by
  unfold addressVConfirm addressVArrowUp
  rcases validateAddress_cases env w data with ⟨m, hm, hv⟩ | ⟨ip, mask, hp, hv⟩
  · rw [hv]
    simp only [ne_eq, hm, not_false_eq_true, if_true]
    constructor <;> apply staticInv_free <;> simp [hfo]
  · rw [hv]
    simp only [ne_eq, not_true_eq_false, if_false]
    constructor
    · refine ⟨fun _ => ?_, by simp [showNext], by simp [showNext]⟩
      simp [showNext, addressAccepted, hp]
    · apply staticInv_free <;> simp [showNext]

theorem gateway_preserves (env : Env) (hmsg : ∀ s, env.ipErrorText s ≠ "")
    (w : Console) (data : String) (hfo : w.focus = some .gatewayPanel)
    (hinv : staticInv env w) :
    staticInv env (gatewayVConfirm env w data) ∧ staticInv env (gatewayVArrowUp env w data) := by
  unfold gatewayVConfirm gatewayVArrowUp
  have haddr := hinv.1 hfo
  rcases validateGateway_cases env hmsg w data with ⟨m, hm, hv⟩ | ⟨hp, hv⟩
  · rw [hv]
    simp only [ne_eq, hm, not_false_eq_true, if_true]
    exact ⟨staticInv_congr env w _ rfl rfl hinv, staticInv_congr env w _ rfl rfl hinv⟩
  · rw [hv]
    simp only [ne_eq, not_true_eq_false, if_false]
    constructor
    · refine ⟨by simp [showNext], fun _ => ?_, by simp [showNext]⟩
      constructor
      · simpa [showNext, addressAccepted] using haddr
      · simp [showNext, gatewayAccepted, hp]
    · apply staticInv_free <;> simp [showNext]

theorem dnsServers_preserves (env : Env) (hmsg : ∀ s, env.ipErrorText s ≠ "")
    (w : Console) (data : String) (hfo : w.focus = some .dnsServersPanel)
    (hinv : staticInv env w) :
    staticInv env (dnsServersVEnter env w data) ∧
      staticInv env (dnsServersVArrowUp env w data) := by
  unfold dnsServersVEnter dnsServersVArrowUp
  obtain ⟨haddr, hgw⟩ := hinv.2.1 hfo
  rcases validateDNSServers_cases env hmsg w data with ⟨m, hm, hv⟩ | ⟨hp, hm, hd, hf, _⟩
  · rw [hv]
    simp only [ne_eq, hm, not_false_eq_true, if_true]
    exact ⟨staticInv_congr env w _ rfl rfl hinv, staticInv_congr env w _ rfl rfl hinv⟩
  · simp only [hm, ne_eq, not_true_eq_false, if_false]
    constructor
    · refine ⟨by simp [showNext], by simp [showNext], fun _ _ => ?_⟩
      simp only [showNext, List.getLast?, List.getLast, closeAll, askNetModeVPostClose]
      split
      · refine ⟨?_, ?_, ?_⟩
        · simpa [hd, addressAccepted] using haddr
        · simpa [hd, gatewayAccepted] using hgw
        · simp [hd, dnsServersAccepted, hp]
      · refine ⟨?_, ?_, ?_⟩
        · simpa [hd, addressAccepted] using haddr
        · simpa [hd, gatewayAccepted] using hgw
        · simp [hd, dnsServersAccepted, hp]
    · refine ⟨fun _ => ?_, by simp [showNext], by simp [showNext]⟩
      simpa [showNext, hd, addressAccepted] using haddr

theorem askNetMode_preserves (env : Env) (w : Console) (data : String)
    (routes : Except String (List (Option String)))
    (hfo : w.focus = some .askNetworkModePanel) :
    staticInv env (askNetModeVEnter w data routes) := by
  unfold askNetModeVEnter
  simp only []
  split
  · apply staticInv_free <;> simp [showNext]
  · split
    · apply staticInv_free <;> simp [closeAll, askNetModeVPostClose, hfo] <;> split <;> simp [hfo]
    · apply staticInv_free <;> simp [showNext]

theorem proxy_preserves (env : Env) (w : Console) (data : String)
    (hfo : w.focus = some .proxyPanel) (hinv : staticInv env w) :
    staticInv env (proxyVEnter w data) ∧ staticInv env (proxyVEsc w) := by
  have h3 := hinv.2.2 (Or.inl hfo)
  unfold proxyVEnter proxyVEsc
  constructor
  · refine ⟨by simp [showNext], by simp [showNext], fun _ hmode => ?_⟩
    by_cases hd : data = ""
    · simp only [hd, ne_eq, not_true_eq_false, if_false, showNext, List.getLast?,
        List.getLast] at hmode ⊢
      exact h3 hmode
    · simp only [hd, ne_eq, not_false_eq_true, if_true, showNext, List.getLast?,
        List.getLast] at hmode ⊢
      simpa [addressAccepted, gatewayAccepted, dnsServersAccepted] using h3 hmode
  · split
    · apply staticInv_free <;> simp [showNext]
    · rename_i hmode
      have hmode2 : w.installData.NetworkMode = networkModeStatic := by
        simpa using hmode
      refine ⟨by simp [showNext], fun _ => ?_, by simp [showNext]⟩
      exact ⟨(h3 hmode2).1, (h3 hmode2).2.1⟩

theorem cloudInit_preserves (env : Env) (w : Console) (data : String)
    (printInstall : Option String)
    (hfo : w.focus = some .cloudInitPanel) (hinv : staticInv env w) :
    staticInv env (cloudInitVEnter w data printInstall) ∧
      staticInv env (cloudInitVEsc w) := by
  have h3 := hinv.2.2 (Or.inr (Or.inl hfo))
  constructor
  · unfold cloudInitVEnter
    split
    · exact staticInv_congr env w _ rfl rfl hinv
    · simp only []
      split
      · refine ⟨by simp [hfo, hidePanel], by simp [hfo, hidePanel], fun _ hmode => ?_⟩
        simpa [hidePanel, addressAccepted, gatewayAccepted, dnsServersAccepted] using h3 hmode
      · refine ⟨by simp [showNext, hidePanel, closeSpinner, startSpinner, diskVEsc, serverURLVEsc, passwordVEsc, sshKeyVEsc, networkVEsc,
            sshKeyVClose, cloudInitVEsc, confirmVEsc, serverURLProbe, sshKeyProbe, runGoroutine, runGoStep], by simp [showNext, hidePanel, closeSpinner, startSpinner, diskVEsc, serverURLVEsc, passwordVEsc, sshKeyVEsc, networkVEsc,
            sshKeyVClose, cloudInitVEsc, confirmVEsc, serverURLProbe, sshKeyProbe, runGoroutine, runGoStep], fun _ hmode => ?_⟩
        simpa [showNext, hidePanel, addressAccepted, gatewayAccepted, dnsServersAccepted] using h3 hmode
  · refine ⟨by simp [showNext, hidePanel, closeSpinner, startSpinner, diskVEsc, serverURLVEsc, passwordVEsc, sshKeyVEsc, networkVEsc,
            sshKeyVClose, cloudInitVEsc, confirmVEsc, serverURLProbe, sshKeyProbe, runGoroutine, runGoStep], by simp [showNext, hidePanel, closeSpinner, startSpinner, diskVEsc, serverURLVEsc, passwordVEsc, sshKeyVEsc, networkVEsc,
            sshKeyVClose, cloudInitVEsc, confirmVEsc, serverURLProbe, sshKeyProbe, runGoroutine, runGoStep], fun _ hmode => ?_⟩
    exact h3 hmode

theorem confirm_preserves (env : Env) (w : Console) (data : String)
    (hfo : w.focus = some .confirmPanel) (hinv : staticInv env w) :
    staticInv env (confirmVEnter w data) ∧ staticInv env (confirmVEsc w) := by
  have h3 := hinv.2.2 (Or.inr (Or.inr hfo))
  constructor
  · unfold confirmVEnter
    split <;> apply staticInv_free <;> simp [showNext, hidePanel, closeSpinner, startSpinner, diskVEsc, serverURLVEsc, passwordVEsc, sshKeyVEsc, networkVEsc,
            sshKeyVClose, cloudInitVEsc, confirmVEsc, serverURLProbe, sshKeyProbe, runGoroutine, runGoStep]
  · refine ⟨by simp [showNext, hidePanel, closeSpinner, startSpinner, diskVEsc, serverURLVEsc, passwordVEsc, sshKeyVEsc, networkVEsc,
            sshKeyVClose, cloudInitVEsc, confirmVEsc, serverURLProbe, sshKeyProbe, runGoroutine, runGoStep], by simp [showNext, hidePanel, closeSpinner, startSpinner, diskVEsc, serverURLVEsc, passwordVEsc, sshKeyVEsc, networkVEsc,
            sshKeyVClose, cloudInitVEsc, confirmVEsc, serverURLProbe, sshKeyProbe, runGoroutine, runGoStep], fun _ hmode => ?_⟩
    exact h3 hmode

theorem staticInv_goBack (env : Env) (w : Console) : staticInv env (goBack w) := by
  apply staticInv_free <;> simp [goBack, showNext]

theorem serverURLVEnter_focus (env : Env) (w : Console) (u : String) (ping : Option String) :
    (serverURLVEnter env w u ping).focus = w.focus ∨
    (serverURLVEnter env w u ping).focus = some .serverURLPanel ∨
    (serverURLVEnter env w u ping).focus = some .tokenPanel := by
  unfold serverURLVEnter
  split
  · exact Or.inl rfl
  · cases ping with
    | some e => exact Or.inr (Or.inl rfl)
    | none => exact Or.inr (Or.inr rfl)

theorem sshKeyVEnter_focus (env : Env) (w : Console) (url : String)
    (pubKeys : Except String (List String)) :
    (sshKeyVEnter env w url pubKeys).focus = some .sshKeyPanel ∨
    (sshKeyVEnter env w url pubKeys).focus = some .networkPanel := by
  unfold sshKeyVEnter
  simp only []
  split
  · cases pubKeys with
    | error e => exact Or.inl rfl
    | ok keys => exact Or.inr rfl
  · exact Or.inr rfl

theorem networkVEnter_focus (w : Console) (selected : String) :
    (networkVEnter w selected).focus = w.focus ∨
    (networkVEnter w selected).focus = some .hostNamePanel := by
  unfold networkVEnter
  split
  · simp only []
    (repeat' split) <;> exact Or.inr rfl
  · exact Or.inl rfl

theorem step_preserves_staticInv (env : Env) (hmsg : ∀ s, env.ipErrorText s ≠ "")
    (w : Console) (e : Event) (h : staticInv env w) : staticInv env (step env w e) := by
  unfold step
  by_cases hf : w.failed.isSome = true
  · simpa [hf] using h
  · simp only [hf, Bool.false_eq_true, if_false]
    rcases hfo : w.focus with _ | p
    · exact h
    · cases p with
      | askCreatePanel =>
        cases e.key <;> simp only []
        · apply staticInv_free <;> simp [askCreateVEnter, showNext, hidePanel]
        all_goals exact h
      | diskPanel =>
        cases e.key <;> simp only []
        · unfold diskVEnter; simp only []; split <;> apply staticInv_free <;> simp [showNext, hidePanel, closeSpinner, startSpinner, diskVEsc, serverURLVEsc, passwordVEsc, sshKeyVEsc, networkVEsc,
            sshKeyVClose, cloudInitVEsc, confirmVEsc, serverURLProbe, sshKeyProbe, runGoroutine, runGoStep]
        · apply staticInv_free <;> simp [showNext, hidePanel, closeSpinner, startSpinner, diskVEsc, serverURLVEsc, passwordVEsc, sshKeyVEsc, networkVEsc,
            sshKeyVClose, cloudInitVEsc, confirmVEsc, serverURLProbe, sshKeyProbe, runGoroutine, runGoStep]
        all_goals exact h
      | serverURLPanel =>
        cases e.key <;> simp only []
        · rcases serverURLVEnter_focus env w e.data e.ext.ping with hh | hh | hh <;>
            apply staticInv_free <;> simp [hh, hfo]
        · apply staticInv_free <;> simp [showNext, hidePanel, closeSpinner, startSpinner, diskVEsc, serverURLVEsc, passwordVEsc, sshKeyVEsc, networkVEsc,
            sshKeyVClose, cloudInitVEsc, confirmVEsc, serverURLProbe, sshKeyProbe, runGoroutine, runGoStep]
        all_goals exact h
      | tokenPanel =>
        cases e.key <;> simp only []
        · unfold tokenVEnter
          split <;> apply staticInv_free <;> simp [showNext, hfo, hidePanel, closeSpinner, startSpinner, diskVEsc, serverURLVEsc, passwordVEsc, sshKeyVEsc, networkVEsc,
            sshKeyVClose, cloudInitVEsc, confirmVEsc, serverURLProbe, sshKeyProbe, runGoroutine, runGoStep]
        · unfold tokenVEsc
          split <;> apply staticInv_free <;> simp [showNext, hidePanel, closeSpinner, startSpinner, diskVEsc, serverURLVEsc, passwordVEsc, sshKeyVEsc, networkVEsc,
            sshKeyVClose, cloudInitVEsc, confirmVEsc, serverURLProbe, sshKeyProbe, runGoroutine, runGoStep]
        all_goals exact h
      | passwordPanel =>
        cases e.key <;> simp only []
        · apply staticInv_free <;> simp [showNext, hidePanel, closeSpinner, startSpinner, diskVEsc, serverURLVEsc, passwordVEsc, sshKeyVEsc, networkVEsc,
            sshKeyVClose, cloudInitVEsc, confirmVEsc, serverURLProbe, sshKeyProbe, runGoroutine, runGoStep]
        · apply staticInv_free <;> simp [showNext, hidePanel, closeSpinner, startSpinner, diskVEsc, serverURLVEsc, passwordVEsc, sshKeyVEsc, networkVEsc,
            sshKeyVClose, cloudInitVEsc, confirmVEsc, serverURLProbe, sshKeyProbe, runGoroutine, runGoStep]
        · exact h
        · apply staticInv_free <;> simp [showNext, hidePanel, closeSpinner, startSpinner, diskVEsc, serverURLVEsc, passwordVEsc, sshKeyVEsc, networkVEsc,
            sshKeyVClose, cloudInitVEsc, confirmVEsc, serverURLProbe, sshKeyProbe, runGoroutine, runGoStep]
      | passwordConfirmPanel =>
        cases e.key <;> simp only []
        · unfold passwordConfirmVEnter
          (repeat' split) <;> apply staticInv_free <;> simp [showNext, hfo, hidePanel, closeSpinner, startSpinner, diskVEsc, serverURLVEsc, passwordVEsc, sshKeyVEsc, networkVEsc,
            sshKeyVClose, cloudInitVEsc, confirmVEsc, serverURLProbe, sshKeyProbe, runGoroutine, runGoStep]
        · apply staticInv_free <;> simp [showNext, hidePanel, closeSpinner, startSpinner, diskVEsc, serverURLVEsc, passwordVEsc, sshKeyVEsc, networkVEsc,
            sshKeyVClose, cloudInitVEsc, confirmVEsc, serverURLProbe, sshKeyProbe, runGoroutine, runGoStep]
        · apply staticInv_free <;> simp [showNext, hidePanel, closeSpinner, startSpinner, diskVEsc, serverURLVEsc, passwordVEsc, sshKeyVEsc, networkVEsc,
            sshKeyVClose, cloudInitVEsc, confirmVEsc, serverURLProbe, sshKeyProbe, runGoroutine, runGoStep]
        · exact h
      | sshKeyPanel =>
        cases e.key <;> simp only []
        · rcases sshKeyVEnter_focus env w e.data e.ext.pubKeys with hh | hh <;>
            apply staticInv_free <;> simp [hh]
        · apply staticInv_free <;> simp [showNext, hidePanel, closeSpinner, startSpinner, diskVEsc, serverURLVEsc, passwordVEsc, sshKeyVEsc, networkVEsc,
            sshKeyVClose, cloudInitVEsc, confirmVEsc, serverURLProbe, sshKeyProbe, runGoroutine, runGoStep]
        all_goals exact h
      | networkPanel =>
        cases e.key <;> simp only []
        · rcases networkVEnter_focus w e.data with hh | hh <;>
            apply staticInv_free <;> simp [hh, hfo]
        · apply staticInv_free <;> simp [showNext, hidePanel, closeSpinner, startSpinner, diskVEsc, serverURLVEsc, passwordVEsc, sshKeyVEsc, networkVEsc,
            sshKeyVClose, cloudInitVEsc, confirmVEsc, serverURLProbe, sshKeyProbe, runGoroutine, runGoStep]
        all_goals exact h
      | askNetworkModePanel =>
        cases e.key <;> simp only []
        · exact askNetMode_preserves env w e.data e.ext.routes hfo
        · exact staticInv_goBack env w
        all_goals exact h
      | hostNamePanel =>
        cases e.key <;> simp only []
        · exact (hostName_preserves env w e.data h).1
        · exact staticInv_goBack env w
        · exact (hostName_preserves env w e.data h).2.1
        · exact (hostName_preserves env w e.data h).2.2
      | addressPanel =>
        cases e.key <;> simp only []
        · exact (address_preserves env w e.data hfo).1
        · exact staticInv_goBack env w
        · exact (address_preserves env w e.data hfo).2
        · exact (address_preserves env w e.data hfo).1
      | gatewayPanel =>
        cases e.key <;> simp only []
        · exact (gateway_preserves env hmsg w e.data hfo h).1
        · exact staticInv_goBack env w
        · exact (gateway_preserves env hmsg w e.data hfo h).2
        · exact (gateway_preserves env hmsg w e.data hfo h).1
      | dnsServersPanel =>
        cases e.key <;> simp only []
        · exact (dnsServers_preserves env hmsg w e.data hfo h).1
        · exact staticInv_goBack env w
        · exact (dnsServers_preserves env hmsg w e.data hfo h).2
        · exact h
      | proxyPanel =>
        cases e.key <;> simp only []
        · exact (proxy_preserves env w e.data hfo h).1
        · exact (proxy_preserves env w e.data hfo h).2
        all_goals exact h
      | cloudInitPanel =>
        cases e.key <;> simp only []
        · exact (cloudInit_preserves env w e.data e.ext.printInstall hfo h).1
        · exact (cloudInit_preserves env w e.data e.ext.printInstall hfo h).2
        all_goals exact h
      | confirmPanel =>
        cases e.key <;> simp only []
        · exact (confirm_preserves env w e.data hfo h).1
        · exact (confirm_preserves env w e.data hfo h).2
        all_goals exact h
      | installPanel =>
        cases e.key <;> exact h

theorem run_preserves_staticInv (env : Env) (hmsg : ∀ s, env.ipErrorText s ≠ "")
    (es : List Event) (w : Console) (h : staticInv env w) : staticInv env (run env w es) := by
  induction es generalizing w with
  | nil => exact h
  | cons e es ih => exact ih _ (step_preserves_staticInv env hmsg w e h)

theorem addressAccepted_ne_empty (env : Env) (d : InstallData)
    (h : addressAccepted env d = true) : d.Address ≠ "" ∧ d.NetMask ≠ "" := by
  unfold addressAccepted at h
  split at h
  · rename_i ip mask hp
    simp only [Bool.and_eq_true, decide_eq_true_eq] at h
    constructor
    · intro he
      rw [he] at hp
      simp [parseCIDR, cutAt] at hp
    · rw [h.2]
      unfold maskText
      exact string_append_ne_empty_left _ _ (string_append_ne_empty_left _ _
        (string_append_ne_empty_left _ _ (string_append_ne_empty_left _ _
          (string_append_ne_empty_left _ _ (string_append_ne_empty_right _ _ (by decide))))))
  · cases h

theorem validateIP_empty (env : Env) : validateIP env "" = some (env.ipErrorText "") := by
  simp [validateIP, parseIPOk, parseIPScan]

theorem gatewayAccepted_ne_empty (env : Env) (d : InstallData)
    (h : gatewayAccepted env d = true) : d.Gateway ≠ "" := by
  intro he
  unfold gatewayAccepted at h
  rw [he, validateIP_empty] at h
  cases h

theorem dnsServersAccepted_ne_empty (env : Env) (d : InstallData)
    (h : dnsServersAccepted env d = true) : d.DNSServers ≠ "" := by
  intro he
  unfold dnsServersAccepted at h
  rw [he] at h
  simp [stringsSplit, splitChar, firstIPError] at h
  have := validateIP_empty env
  simp [this] at h

/-- C8. From any state with the network-interface panel in focus, after any
sequence of key events that ends on the proxy panel with `NetworkMode` static:
`Address` is accepted by the address validator with `IP` and `NetMask` derived
from it, `Gateway` is accepted by the gateway validator, every element of
`DNSServers` is accepted by the DNS validator, and the four fields are not
empty. The error texts of `validateIP` are taken to be non-empty. -/
theorem static_fields_validated_at_proxy (env : Env)
    (hmsg : ∀ s, env.ipErrorText s ≠ "") (w0 : Console) (es : List Event)
    (hstart : w0.focus = some .networkPanel)
    (hfocus : (run env w0 es).focus = some .proxyPanel)
    (hmode : (run env w0 es).installData.NetworkMode = networkModeStatic) :
    (addressAccepted env (run env w0 es).installData = true ∧
     gatewayAccepted env (run env w0 es).installData = true ∧
     dnsServersAccepted env (run env w0 es).installData = true) ∧
    (run env w0 es).installData.Address ≠ "" ∧
    (run env w0 es).installData.NetMask ≠ "" ∧
    (run env w0 es).installData.Gateway ≠ "" ∧
    (run env w0 es).installData.DNSServers ≠ "" := by
  have h0 : staticInv env w0 := by
    apply staticInv_free <;> simp [hstart]
  have h := (run_preserves_staticInv env hmsg es w0 h0).2.2 (Or.inl hfocus) hmode
  exact ⟨h, (addressAccepted_ne_empty env _ h.1).1, (addressAccepted_ne_empty env _ h.1).2,
    gatewayAccepted_ne_empty env _ h.2.1, dnsServersAccepted_ne_empty env _ h.2.2⟩

theorem sampleEnv_ipErrorText (s : String) : sampleEnv.ipErrorText s ≠ "" :=
  string_append_ne_empty_left _ _ (by decide)

/-- Witness for C8: the static pass from the network-interface panel. -/
theorem static_fields_validated_at_proxy_witness :
    (addressAccepted sampleEnv (run sampleEnv atNetworkPanel staticPath).installData = true ∧
     gatewayAccepted sampleEnv (run sampleEnv atNetworkPanel staticPath).installData = true ∧
     dnsServersAccepted sampleEnv (run sampleEnv atNetworkPanel staticPath).installData
       = true) ∧
    (run sampleEnv atNetworkPanel staticPath).installData.Address ≠ "" ∧
    (run sampleEnv atNetworkPanel staticPath).installData.NetMask ≠ "" ∧
    (run sampleEnv atNetworkPanel staticPath).installData.Gateway ≠ "" ∧
    (run sampleEnv atNetworkPanel staticPath).installData.DNSServers ≠ "" :=
  static_fields_validated_at_proxy sampleEnv sampleEnv_ipErrorText atNetworkPanel staticPath
    rfl (by decide) (by decide)

/-! ## Theorems: the address validator on IPv4 CIDR blocks -/

set_option maxRecDepth 100000 in
theorem reprOk_byte : ∀ n, n < 256 → reprOk n = true := by
  decide

theorem repr_byte (n : Nat) (h : n < 256) :
    (toString n).data ≠ [] ∧ (∀ c ∈ (toString n).data, isDigit c = true) ∧
      digitsVal 0 (toString n).data = n := by
  have := reprOk_byte n h
  simp only [reprOk, Bool.and_eq_true, Bool.not_eq_true', List.isEmpty_eq_false,
    List.all_eq_true, decide_eq_true_eq] at this
  exact ⟨this.1.1, this.1.2, this.2⟩

theorem digitsVal_ge (ds : List Char) (n : Nat) : n ≤ digitsVal n ds := by
  induction ds generalizing n with
  | nil => exact Nat.le_refl n
  | cons c cs ih =>
    have := ih (n * 10 + (c.toNat - 48))
    simp only [digitsVal, List.foldl_cons] at this ⊢
    omega

theorem dtoiLoop_digits (ds rest : List Char) (n i : Nat)
    (hds : ∀ c ∈ ds, isDigit c = true)
    (hrest : ∀ c, rest.head? = some c → isDigit c = false)
    (hval : digitsVal n ds < big) (hi : i + ds.length ≠ 0) :
    dtoiLoop (ds ++ rest) n i = (digitsVal n ds, i + ds.length, true) := by
  induction ds generalizing n i with
  | nil =>
    have hi0 : i ≠ 0 := by simpa using hi
    cases rest with
    | nil => simp [dtoiLoop, hi0, digitsVal]
    | cons c cs =>
      have hc := hrest c rfl
      simp [dtoiLoop, hc, hi0, digitsVal]
  | cons c cs ih =>
    have hc : isDigit c = true := hds c (List.mem_cons_self _ _)
    have hval2 : digitsVal (n * 10 + (c.toNat - 48)) cs < big := by
      simpa [digitsVal] using hval
    have hlt : ¬ (n * 10 + (c.toNat - 48) ≥ big) := by
      have := digitsVal_ge cs (n * 10 + (c.toNat - 48))
      omega
    have hrec := ih (n * 10 + (c.toNat - 48)) (i + 1)
      (fun x hx => hds x (List.mem_cons_of_mem _ hx)) hval2 (by omega)
    simp only [List.cons_append, dtoiLoop, hc, if_true, hlt, if_false, List.append_eq]
    rw [hrec]
    simp [digitsVal, Nat.add_assoc, Nat.add_comm 1]

theorem dtoi_digits (ds rest : List Char) (v : Nat)
    (hne : ds ≠ []) (hds : ∀ c ∈ ds, isDigit c = true)
    (hrest : ∀ c, rest.head? = some c → isDigit c = false)
    (hv : digitsVal 0 ds = v) (hlt : v < big) :
    dtoi (ds ++ rest) = (v, ds.length, true) := by
  have hlen : 0 + ds.length ≠ 0 := by
    cases ds with
    | nil => exact absurd rfl hne
    | cons c cs => simp
  have := dtoiLoop_digits ds rest 0 0 hds hrest (by rw [hv]; exact hlt) hlen
  simpa [dtoi, hv] using this

theorem isDigit_ne (c x : Char) (hc : isDigit c = true) (hx : isDigit x = false) : c ≠ x := by
  intro h; rw [h, hx] at hc; cases hc

theorem parseOctets_octet (k v : Nat) (first : Bool) (ds rest : List Char)
    (hne : ds ≠ []) (hds : ∀ c ∈ ds, isDigit c = true)
    (hrest : ∀ c, rest.head? = some c → isDigit c = false)
    (hv : digitsVal 0 ds = v) (hle : v < 256) :
    parseOctets (k + 1) first (if first then ds ++ rest else '.' :: (ds ++ rest)) =
      match parseOctets k false rest with
      | none => none
      | some (p, r) => some (v :: p, r) := by
  have hd := dtoi_digits ds rest v hne hds hrest hv (by unfold big; omega)
  have hle2 : ¬ v > 255 := by omega
  cases first with
  | true =>
    cases ds with
    | nil => exact absurd rfl hne
    | cons c cs =>
      simp only [if_true, List.cons_append, parseOctets, Bool.not_true, Bool.false_and,
        Bool.false_eq_true, if_false]
      rw [← List.cons_append, hd]
      simp [hle2]
  | false =>
    simp only [Bool.false_eq_true, if_false, parseOctets, Bool.not_false, Bool.true_and,
      ne_eq, not_true_eq_false, decide_False]
    rw [hd]
    simp [hle2]

theorem isDigit_dot : isDigit '.' = false := by decide

theorem head_dot_not_digit (l : List Char) :
    ∀ c, ('.' :: l).head? = some c → isDigit c = false := by
  intro c h
  simp only [List.head?_cons, Option.some.injEq] at h
  rw [← h]; exact isDigit_dot

theorem head_nil_not_digit : ∀ c : Char, ([] : List Char).head? = some c → isDigit c = false := by
  intro c h; cases h

theorem parseIPv4_dotted (a b c d : Nat) (ha : a < 256) (hb : b < 256) (hc : c < 256)
    (hd : d < 256) :
    parseIPv4 ((toString a).data ++ '.' :: ((toString b).data ++ '.' ::
      ((toString c).data ++ '.' :: (toString d).data))) = some [a, b, c, d] := by
  obtain ⟨a1, a2, a3⟩ := repr_byte a ha
  obtain ⟨b1, b2, b3⟩ := repr_byte b hb
  obtain ⟨c1, c2, c3⟩ := repr_byte c hc
  obtain ⟨d1, d2, d3⟩ := repr_byte d hd
  have h4 := parseOctets_octet 0 d false (toString d).data [] d1 d2 head_nil_not_digit d3 hd
  have h3 := parseOctets_octet 1 c false (toString c).data ('.' :: ((toString d).data ++ []))
    c1 c2 (head_dot_not_digit _) c3 hc
  have h2 := parseOctets_octet 2 b false (toString b).data
    ('.' :: ((toString c).data ++ '.' :: ((toString d).data ++ [])))
    b1 b2 (head_dot_not_digit _) b3 hb
  have h1 := parseOctets_octet 3 a true (toString a).data
    ('.' :: ((toString b).data ++ '.' :: ((toString c).data ++ '.' :: ((toString d).data ++ []))))
    a1 a2 (head_dot_not_digit _) a3 ha
  have h0 : parseOctets 0 false [] = some ([], []) := rfl
  simp only [Bool.false_eq_true, if_false, if_true] at h1 h2 h3 h4
  rw [h0] at h4
  rw [h4] at h3
  rw [h3] at h2
  rw [h2] at h1
  simp only [List.append_nil] at h1
  unfold parseIPv4
  rw [h1]

theorem cutAt_append (c : Char) (pre post : List Char) (h : c ∉ pre) :
    cutAt c (pre ++ c :: post) = some (pre, post) := by
  induction pre with
  | nil => simp [cutAt]
  | cons x xs ih =>
    have hx : x ≠ c := fun hxc => h (by rw [hxc]; exact List.mem_cons_self _ _)
    have hxs : c ∉ xs := fun hm => h (List.mem_cons_of_mem _ hm)
    simp [cutAt, hx, ih hxs]

set_option maxRecDepth 100000 in
theorem cidrMask_eq_prefixMask : ∀ n, n < 33 → cidrMask 4 n = prefixMask n := by
  decide

theorem slash_not_digit (l : List Char) (h : ∀ c ∈ l, isDigit c = true) : '/' ∉ l := by
  intro hm
  have := h '/' hm
  exact absurd this (by decide)

theorem parseCIDR_ipv4 (g : GoNet) (a b c d n : Nat) (ha : a < 256) (hb : b < 256)
    (hc : c < 256) (hd : d < 256) (hn : n ≤ 32) :
    parseCIDR g (cidrText a b c d n) = .ok (dottedQuad [a, b, c, d], prefixMask n) := by
  obtain ⟨a1, a2, a3⟩ := repr_byte a ha
  obtain ⟨b1, b2, b3⟩ := repr_byte b hb
  obtain ⟨c1, c2, c3⟩ := repr_byte c hc
  obtain ⟨d1, d2, d3⟩ := repr_byte d hd
  obtain ⟨n1, n2, n3⟩ := repr_byte n (by omega)
  have hdata : (cidrText a b c d n).data =
      ((toString a).data ++ '.' :: ((toString b).data ++ '.' ::
        ((toString c).data ++ '.' :: (toString d).data))) ++ '/' :: (toString n).data := by
    simp [cidrText, dottedQuad, String.data_append, List.append_assoc]
  have hslash : '/' ∉ ((toString a).data ++ '.' :: ((toString b).data ++ '.' ::
        ((toString c).data ++ '.' :: (toString d).data))) := by
    simp only [List.mem_append, List.mem_cons, not_or]
    refine ⟨slash_not_digit _ a2, by decide, slash_not_digit _ b2, by decide,
      slash_not_digit _ c2, by decide, slash_not_digit _ d2⟩
  have hcut := cutAt_append '/' _ (toString n).data hslash
  have hdtoi := dtoi_digits (toString n).data [] n n1 n2 head_nil_not_digit n3
    (by unfold big; omega)
  rw [List.append_nil] at hdtoi
  have hip := parseIPv4_dotted a b c d ha hb hc hd
  have hmask := cidrMask_eq_prefixMask n (by omega)
  have hn2 : ¬ n > 8 * 4 := by omega
  unfold parseCIDR
  simp only [hdata, hcut, hip, hdtoi, hmask, hn2]
  simp

/-- C10. For octets `a b c d` and a prefix length `n` of at most 32,
`validateAddress` accepts the text `a.b.c.d/n` with an empty message, stores
the text in `Address`, the host address `a.b.c.d` as entered in `IP`, and the
dotted-quad text of the n-bit prefix mask in `NetMask`. -/
theorem validateAddress_accepts_ipv4_cidr (env : Env) (w : Console) (a b c d n : Nat)
    (ha : a < 256) (hb : b < 256) (hc : c < 256) (hd : d < 256) (hn : n ≤ 32) :
    (validateAddress env w (cidrText a b c d n)).1 = "" ∧
    (validateAddress env w (cidrText a b c d n)).2.installData.Address = cidrText a b c d n ∧
    (validateAddress env w (cidrText a b c d n)).2.installData.IP = dottedQuad [a, b, c, d] ∧
    (validateAddress env w (cidrText a b c d n)).2.installData.NetMask
      = dottedQuad (prefixMask n) := by
  have hp := parseCIDR_ipv4 env.gonet a b c d n ha hb hc hd hn
  refine ⟨?_, ?_, ?_, ?_⟩ <;> (simp only [validateAddress, hp]; try rfl)

/-- Witness for C10: the input "192.168.1.10/24" gives IP "192.168.1.10" and
mask "255.255.255.0". -/
theorem validateAddress_accepts_ipv4_cidr_witness :
    (validateAddress sampleEnv atNetworkPanel "192.168.1.10/24").1 = "" ∧
    (validateAddress sampleEnv atNetworkPanel "192.168.1.10/24").2.installData.Address
      = "192.168.1.10/24" ∧
    (validateAddress sampleEnv atNetworkPanel "192.168.1.10/24").2.installData.IP
      = "192.168.1.10" ∧
    (validateAddress sampleEnv atNetworkPanel "192.168.1.10/24").2.installData.NetMask
      = "255.255.255.0" :=
  validateAddress_accepts_ipv4_cidr sampleEnv atNetworkPanel 192 168 1 10 24
    (by decide) (by decide) (by decide) (by decide) (by decide)

/-! ## Theorems: validators and confirm actions of the wizard -/

theorem step_address_enter (env : Env) (w : Console) (e : Event)
    (hfail : w.failed = none) (hfocus : w.focus = some .addressPanel)
    (hkey : e.key = .KeyEnter) :
    step env w e = addressVConfirm env w e.data := by
  simp [step, hfail, hfocus, hkey]

/-- The address confirm on an input that does not parse: the message is shown
in the validator panel and the input has been stored in `Address`; nothing else
changes. -/
theorem addressVConfirm_reject (env : Env) (w : Console) (address m : String)
    (hp : parseCIDR env.gonet address = .error m) :
    addressVConfirm env w address =
      { w with installData.Address := address, networkValidator := m } := by
  have hm := parseCIDR_error _ _ _ hp
  simp [addressVConfirm, validateAddress, hp, hm]

/-- C11 (the code at the failing input). After a complete static pass the user
returns to the address panel and confirms "not-a-cidr": the parse error is
shown inline, the focus stays on the address panel, `IP` and `NetMask` keep
their values, and `Address` is overwritten by the rejected text. -/
theorem rejected_address_is_stored :
    (run sampleEnv atNetworkPanel backToAddressPath).focus = some .addressPanel ∧
    (run sampleEnv atNetworkPanel backToAddressPath).installData.Address = "192.168.1.10/24" ∧
    parseCIDR sampleEnv.gonet "not-a-cidr" = .error "invalid CIDR address: not-a-cidr" ∧
    (step sampleEnv (run sampleEnv atNetworkPanel backToAddressPath)
      (keyEvent .KeyEnter "not-a-cidr")).networkValidator = "invalid CIDR address: not-a-cidr" ∧
    (step sampleEnv (run sampleEnv atNetworkPanel backToAddressPath)
      (keyEvent .KeyEnter "not-a-cidr")).focus = some .addressPanel ∧
    (step sampleEnv (run sampleEnv atNetworkPanel backToAddressPath)
      (keyEvent .KeyEnter "not-a-cidr")).installData.IP = "192.168.1.10" ∧
    (step sampleEnv (run sampleEnv atNetworkPanel backToAddressPath)
      (keyEvent .KeyEnter "not-a-cidr")).installData.NetMask = "255.255.255.0" ∧
    (step sampleEnv (run sampleEnv atNetworkPanel backToAddressPath)
      (keyEvent .KeyEnter "not-a-cidr")).installData.Address = "not-a-cidr" := by
  decide

/-- C12. `validateHostName` accepts `h` exactly when `h` passes the
qualified-name rules: then the message is empty and `h` is stored in the target
configuration's `Hostname` and in `HostName`; otherwise the message is
"<h> is not a valid hostname" and the state is unchanged. "bad_host!" is
rejected and "harvester-abcde" is accepted. -/
theorem validateHostName_accepts_iff_qualified (w : Console) (h : String) :
    (validateHostName w h =
      if isQualifiedName h then
        ("", { w with networkValidator := "", config.Hostname := h, installData.HostName := h })
      else (h ++ " is not a valid hostname", w)) ∧
    ((validateHostName w h).1 = "" ↔ isQualifiedName h = true) ∧
    isQualifiedName "bad_host!" = false ∧
    isQualifiedName "harvester-abcde" = true ∧
    (validateHostName w "bad_host!") = ("bad_host! is not a valid hostname", w) := by
  refine ⟨?_, ?_, by decide, by decide, ?_⟩
  · unfold validateHostName
    cases isQualifiedName h <;> simp
  · unfold validateHostName
    cases hq : isQualifiedName h
    · simp only [Bool.not_false, if_true, Bool.false_eq_true, iff_false]
      exact string_append_ne_empty_right _ _ (by decide)
    · simp
  · have hq : isQualifiedName "bad_host!" = false := by decide
    simp only [validateHostName, hq, Bool.not_false, if_true]
    have : "bad_host!" ++ " is not a valid hostname" = "bad_host! is not a valid hostname" := by
      decide
    rw [this]

theorem step_passwordConfirm_enter (env : Env) (w : Console) (e : Event)
    (hfail : w.failed = none) (hfocus : w.focus = some .passwordConfirmPanel)
    (hkey : e.key = .KeyEnter) :
    step env w e = passwordConfirmVEnter w e.password1 e.data e.ext.encrypted := by
  simp [step, hfail, hfocus, hkey]

theorem passwordConfirmVEnter_mismatch (w : Console) (p1 p2 : String)
    (enc : Except String String) (h : p1 ≠ p2) :
    passwordConfirmVEnter w p1 p2 enc = { w with validator := "Password mismatching" } := by
  simp [passwordConfirmVEnter, h]

theorem passwordConfirmVEnter_empty (w : Console) (enc : Except String String) :
    passwordConfirmVEnter w "" "" enc = { w with validator := "Password is required" } := by
  simp [passwordConfirmVEnter]

theorem passwordConfirmVEnter_error (w : Console) (p m : String) (hp : p ≠ "") :
    passwordConfirmVEnter w p p (.error m) =
      { hidePanel (hidePanel w .passwordPanel) .passwordConfirmPanel with
        installData.Password := p, failed := some m } := by
  simp [passwordConfirmVEnter, hp]

theorem passwordConfirmVEnter_ok (w : Console) (p h : String) (hp : p ≠ "") :
    passwordConfirmVEnter w p p (.ok h) =
      showNext { hidePanel (hidePanel w .passwordPanel) .passwordConfirmPanel with
        installData.Password := p, config.Password := h } [.sshKeyPanel] := by
  simp [passwordConfirmVEnter, hp]

/-- C13 (as stated, refuted). Both entries are "secret", equal and not empty,
and the password-hash function fails: the confirm returns the error and does
not advance to the SSH-key panel. -/
theorem equal_passwords_hash_failure_counterexample :
    (run sampleEnv Console.initial toPasswordConfirmPath).focus = some .passwordConfirmPanel ∧
    (run sampleEnv Console.initial toPasswordConfirmPath).failed = none ∧
    hashFailsEvent.password1 = hashFailsEvent.data ∧ hashFailsEvent.password1 ≠ "" ∧
    (step sampleEnv (run sampleEnv Console.initial toPasswordConfirmPath) hashFailsEvent).focus
      = some .passwordConfirmPanel ∧
    (step sampleEnv (run sampleEnv Console.initial toPasswordConfirmPath) hashFailsEvent).failed
      = some "chpasswd failed" := by
  decide

/-- C13 (amended). The confirm on the confirm-password panel advances to the
SSH-key panel if and only if the two entries are equal, not empty and the
password hash is computed without error. For entries that differ it shows
"Password mismatching", for two empty entries "Password is required", and in
both cases nothing but the validator text changes: `installData`, the target
configuration and the set of visible panels stay as they were. -/
theorem password_confirm_advances_iff (env : Env) (w : Console) (e : Event)
    (hfail : w.failed = none) (hfocus : w.focus = some .passwordConfirmPanel)
    (hkey : e.key = .KeyEnter) :
    ((step env w e).focus = some .sshKeyPanel ↔
      (e.password1 = e.data ∧ e.password1 ≠ "" ∧ ∃ h, e.ext.encrypted = .ok h)) ∧
    (e.password1 ≠ e.data → step env w e = { w with validator := "Password mismatching" }) ∧
    (e.password1 = e.data → e.password1 = "" →
      step env w e = { w with validator := "Password is required" }) ∧
    (e.password1 ≠ e.data ∨ e.password1 = "" →
      (step env w e).installData = w.installData ∧ (step env w e).config = w.config ∧
      (step env w e).ui.shown = w.ui.shown ∧ (step env w e).focus = w.focus) := by
  rw [step_passwordConfirm_enter env w e hfail hfocus hkey]
  obtain ⟨key, data, password1, ext⟩ := e
  simp only []
  by_cases h1 : password1 = data
  · subst h1
    by_cases h2 : password1 = ""
    · subst h2
      have hr := passwordConfirmVEnter_empty w ext.encrypted
      rw [hr]
      simp [hfocus]
    · cases henc : ext.encrypted with
      | error m =>
        rw [passwordConfirmVEnter_error w password1 m h2]
        simp [h2, hfocus, hidePanel]
      | ok h =>
        rw [passwordConfirmVEnter_ok w password1 h h2]
        simp [h2, showNext]
  · rw [passwordConfirmVEnter_mismatch w password1 data ext.encrypted h1]
    simp [h1, hfocus]

/-- Witness for C13 (amended): the entries "x" and "y". -/
theorem password_confirm_advances_iff_witness :
    ((step sampleEnv (run sampleEnv Console.initial toPasswordConfirmPath) mismatchEvent).focus
        = some .sshKeyPanel ↔
      (mismatchEvent.password1 = mismatchEvent.data ∧ mismatchEvent.password1 ≠ "" ∧
        ∃ h, mismatchEvent.ext.encrypted = .ok h)) ∧
    (mismatchEvent.password1 ≠ mismatchEvent.data →
      step sampleEnv (run sampleEnv Console.initial toPasswordConfirmPath) mismatchEvent
        = { run sampleEnv Console.initial toPasswordConfirmPath with
            validator := "Password mismatching" }) ∧
    (mismatchEvent.password1 = mismatchEvent.data → mismatchEvent.password1 = "" →
      step sampleEnv (run sampleEnv Console.initial toPasswordConfirmPath) mismatchEvent
        = { run sampleEnv Console.initial toPasswordConfirmPath with
            validator := "Password is required" }) ∧
    (mismatchEvent.password1 ≠ mismatchEvent.data ∨ mismatchEvent.password1 = "" →
      (step sampleEnv (run sampleEnv Console.initial toPasswordConfirmPath)
          mismatchEvent).installData
        = (run sampleEnv Console.initial toPasswordConfirmPath).installData ∧
      (step sampleEnv (run sampleEnv Console.initial toPasswordConfirmPath) mismatchEvent).config
        = (run sampleEnv Console.initial toPasswordConfirmPath).config ∧
      (step sampleEnv (run sampleEnv Console.initial toPasswordConfirmPath)
          mismatchEvent).ui.shown
        = (run sampleEnv Console.initial toPasswordConfirmPath).ui.shown ∧
      (step sampleEnv (run sampleEnv Console.initial toPasswordConfirmPath) mismatchEvent).focus
        = (run sampleEnv Console.initial toPasswordConfirmPath).focus) :=
  password_confirm_advances_iff sampleEnv (run sampleEnv Console.initial toPasswordConfirmPath)
    mismatchEvent (by decide) (by decide) rfl

/-- C14. For a password `p` that is not empty, entered on both password panels,
with the password-hash function returning `h`: the confirm stores `h`, the
output of the hash function, in the target configuration's password and changes
no other field of the target configuration; the raw `p` is stored in
`installData.Password` only; the SSH-key panel gets the focus. -/
theorem password_stored_hashed (env : Env) (w : Console) (e : Event) (p h : String)
    (hfail : w.failed = none) (hfocus : w.focus = some .passwordConfirmPanel)
    (hkey : e.key = .KeyEnter) (h1 : e.password1 = p) (h2 : e.data = p) (hp : p ≠ "")
    (henc : e.ext.encrypted = .ok h) :
    (step env w e).config = { w.config with Password := h } ∧
    (step env w e).installData = { w.installData with Password := p } ∧
    (step env w e).focus = some .sshKeyPanel ∧
    (step env w e).failed = none := by
  rw [step_passwordConfirm_enter env w e hfail hfocus hkey, h1, h2, henc,
    passwordConfirmVEnter_ok w p h hp]
  simp [showNext, hidePanel, hfail]

/-- Witness for C14: the password "secret" entered twice. -/
theorem password_stored_hashed_witness :
    (step sampleEnv (run sampleEnv Console.initial toPasswordConfirmPath)
        (keyEvent .KeyEnter "secret")).config
      = { (run sampleEnv Console.initial toPasswordConfirmPath).config with
          Password := "$6$salt$hash" } ∧
    (step sampleEnv (run sampleEnv Console.initial toPasswordConfirmPath)
        (keyEvent .KeyEnter "secret")).installData
      = { (run sampleEnv Console.initial toPasswordConfirmPath).installData with
          Password := "secret" } ∧
    (step sampleEnv (run sampleEnv Console.initial toPasswordConfirmPath)
        (keyEvent .KeyEnter "secret")).focus = some .sshKeyPanel ∧
    (step sampleEnv (run sampleEnv Console.initial toPasswordConfirmPath)
        (keyEvent .KeyEnter "secret")).failed = none :=
  password_stored_hashed sampleEnv (run sampleEnv Console.initial toPasswordConfirmPath)
    (keyEvent .KeyEnter "secret") "secret" "$6$salt$hash" (by decide) (by decide) rfl rfl rfl
    (by decide) rfl

/-! ## Theorems: background probes -/

theorem step_serverURL_enter (env : Env) (w : Console) (e : Event)
    (hfail : w.failed = none) (hfocus : w.focus = some .serverURLPanel)
    (hkey : e.key = .KeyEnter) :
    step env w e = serverURLVEnter env w e.data e.ext.ping := by
  simp [step, hfail, hfocus, hkey]

/-- C15. The confirm on the management-address panel with an input `u` that is
not empty. If the probe fails with message `m`: the target configuration and
`installData` are unchanged, the spinner is stopped with `m` as an error, the
goroutine hands exactly one callback to `g.Update`, and after it the
management-address panel is visible and in focus. If the probe succeeds: the
only change to the target configuration is `ServerURL`, set to the formatted
URL, the only change to `installData` is `ServerURL`, set to `u`, exactly one
callback is handed to `g.Update`, and after it the token panel is in focus. -/
theorem serverURL_probe_outcome (env : Env) (w : Console) (e : Event)
    (hfail : w.failed = none) (hfocus : w.focus = some .serverURLPanel)
    (hkey : e.key = .KeyEnter) (hu : e.data ≠ "") :
    (∀ m, e.ext.ping = some m →
      (step env w e).config = w.config ∧
      (step env w e).installData = w.installData ∧
      (step env w e).ui.spinner = .stopped true m ∧
      countUpdates (serverURLProbe (env.getFormattedServerURL e.data) e.data e.ext.ping) = 1 ∧
      (step env w e).focus = some .serverURLPanel ∧
      .serverURLPanel ∈ (step env w e).ui.shown) ∧
    (e.ext.ping = none →
      (step env w e).config = { w.config with ServerURL := env.getFormattedServerURL e.data } ∧
      (step env w e).installData = { w.installData with ServerURL := e.data } ∧
      (step env w e).ui.spinner = .stopped false "" ∧
      countUpdates (serverURLProbe (env.getFormattedServerURL e.data) e.data e.ext.ping) = 1 ∧
      (step env w e).focus = some .tokenPanel ∧
      .tokenPanel ∈ (step env w e).ui.shown) := by
  rw [step_serverURL_enter env w e hfail hfocus hkey]
  unfold serverURLVEnter
  rw [if_neg hu]
  constructor
  · intro m hm
    rw [hm]
    simp [serverURLProbe, runGoroutine, runGoStep, countUpdates, showNext, startSpinner, reveal]
    split <;> simp_all
  · intro hm
    rw [hm]
    simp [serverURLProbe, runGoroutine, runGoStep, countUpdates, showNext, startSpinner, reveal]
    split <;> simp_all

/-- Witness for C15: the address "10.0.0.1" and a probe that fails. -/
theorem serverURL_probe_outcome_witness :
    (∀ m, pingFailsEvent.ext.ping = some m →
      (step sampleEnv (run sampleEnv Console.initial toServerURLPath) pingFailsEvent).config
        = (run sampleEnv Console.initial toServerURLPath).config ∧
      (step sampleEnv (run sampleEnv Console.initial toServerURLPath) pingFailsEvent).installData
        = (run sampleEnv Console.initial toServerURLPath).installData ∧
      (step sampleEnv (run sampleEnv Console.initial toServerURLPath) pingFailsEvent).ui.spinner
        = .stopped true m ∧
      countUpdates (serverURLProbe (sampleEnv.getFormattedServerURL pingFailsEvent.data)
        pingFailsEvent.data pingFailsEvent.ext.ping) = 1 ∧
      (step sampleEnv (run sampleEnv Console.initial toServerURLPath) pingFailsEvent).focus
        = some .serverURLPanel ∧
      .serverURLPanel ∈
        (step sampleEnv (run sampleEnv Console.initial toServerURLPath) pingFailsEvent).ui.shown) ∧
    (pingFailsEvent.ext.ping = none →
      (step sampleEnv (run sampleEnv Console.initial toServerURLPath) pingFailsEvent).config
        = { (run sampleEnv Console.initial toServerURLPath).config with
            ServerURL := sampleEnv.getFormattedServerURL pingFailsEvent.data } ∧
      (step sampleEnv (run sampleEnv Console.initial toServerURLPath) pingFailsEvent).installData
        = { (run sampleEnv Console.initial toServerURLPath).installData with
            ServerURL := pingFailsEvent.data } ∧
      (step sampleEnv (run sampleEnv Console.initial toServerURLPath) pingFailsEvent).ui.spinner
        = .stopped false "" ∧
      countUpdates (serverURLProbe (sampleEnv.getFormattedServerURL pingFailsEvent.data)
        pingFailsEvent.data pingFailsEvent.ext.ping) = 1 ∧
      (step sampleEnv (run sampleEnv Console.initial toServerURLPath) pingFailsEvent).focus
        = some .tokenPanel ∧
      .tokenPanel ∈
        (step sampleEnv (run sampleEnv Console.initial toServerURLPath) pingFailsEvent).ui.shown) :=
  serverURL_probe_outcome sampleEnv (run sampleEnv Console.initial toServerURLPath)
    pingFailsEvent (by decide) (by decide) rfl (by decide)

/-- C16 (the code at the failing input). In the goroutines of the
management-address probe and of the SSH-key probe, after a successful probe,
the assignments to `cfg.Config.K3OS.ServerURL`, `installData.ServerURL`,
`cfg.Config.SSHAuthorizedKeys` and `installData.SSHKeyURL` are steps of the
goroutine itself: running only those steps, without the callback handed to
`g.Update`, already changes the four fields, and the callbacks leave them as
they are. -/
theorem probe_assigns_outside_update :
    (runAssignsOnly Console.initial
      (serverURLProbe "https://10.0.0.1:6443" "10.0.0.1" none)).config.ServerURL
      = "https://10.0.0.1:6443" ∧
    (runAssignsOnly Console.initial
      (serverURLProbe "https://10.0.0.1:6443" "10.0.0.1" none)).installData.ServerURL
      = "10.0.0.1" ∧
    (runAssignsOnly Console.initial (sshKeyProbe "https://example.com/user.keys"
      (.ok ["ssh-rsa AAAA user"]))).config.SSHAuthorizedKeys = ["ssh-rsa AAAA user"] ∧
    (runAssignsOnly Console.initial (sshKeyProbe "https://example.com/user.keys"
      (.ok ["ssh-rsa AAAA user"]))).installData.SSHKeyURL = "https://example.com/user.keys" ∧
    Console.initial.config.ServerURL = "" ∧ Console.initial.installData.ServerURL = "" ∧
    Console.initial.config.SSHAuthorizedKeys = [] ∧ Console.initial.installData.SSHKeyURL = "" ∧
    (showNext Console.initial [.tokenPanel]).config = Console.initial.config ∧
    (showNext Console.initial [.tokenPanel]).installData = Console.initial.installData ∧
    (showNext (sshKeyVClose Console.initial) [.networkPanel]).config = Console.initial.config ∧
    (showNext (sshKeyVClose Console.initial) [.networkPanel]).installData
      = Console.initial.installData := by
  decide

/-- C17 (the code at the failing input). After a successful key retrieval the
user comes back to the SSH-key panel. Confirming with an empty URL, or with a
URL whose retrieval fails, empties the target configuration's key list and
leaves the earlier URL in `SSHKeyURL`. -/
theorem stale_sshKeyURL_after_empty_confirm :
    (run sampleEnv Console.initial sshKeysThenBackPath).focus = some .sshKeyPanel ∧
    (run sampleEnv Console.initial sshKeysThenBackPath).config.SSHAuthorizedKeys
      = ["ssh-rsa AAAA user"] ∧
    (run sampleEnv Console.initial sshKeysThenBackPath).installData.SSHKeyURL
      = "https://example.com/user.keys" ∧
    (step sampleEnv (run sampleEnv Console.initial sshKeysThenBackPath)
      (keyEvent .KeyEnter "")).config.SSHAuthorizedKeys = [] ∧
    (step sampleEnv (run sampleEnv Console.initial sshKeysThenBackPath)
      (keyEvent .KeyEnter "")).installData.SSHKeyURL = "https://example.com/user.keys" ∧
    (step sampleEnv (run sampleEnv Console.initial sshKeysThenBackPath)
      (keyEvent .KeyEnter "")).focus = some .networkPanel ∧
    (step sampleEnv (run sampleEnv Console.initial sshKeysThenBackPath)
      sshKeysFailEvent).config.SSHAuthorizedKeys = [] ∧
    (step sampleEnv (run sampleEnv Console.initial sshKeysThenBackPath)
      sshKeysFailEvent).installData.SSHKeyURL = "https://example.com/user.keys" := by
  decide

/-! ## Theorems: the DNS validator -/

theorem firstIPError_none_iff (env : Env) (l : List String) :
    firstIPError env l = none ↔ ∀ x ∈ l, parseIPOk env.gonet x = true := by
  induction l with
  | nil => simp [firstIPError]
  | cons x rest ih =>
    unfold firstIPError
    by_cases hx : parseIPOk env.gonet x = true
    · simp [validateIP, hx, ih]
    · simp [validateIP, hx]

theorem firstIPError_first_failing (env : Env) (l : List String)
    (h : ¬ ∀ x ∈ l, parseIPOk env.gonet x = true) :
    ∃ pre x post, l = pre ++ x :: post ∧ (∀ y ∈ pre, parseIPOk env.gonet y = true) ∧
      parseIPOk env.gonet x = false ∧ firstIPError env l = some (env.ipErrorText x) := by
  induction l with
  | nil => exact absurd (fun x hx => absurd hx (List.not_mem_nil x)) h
  | cons a rest ih =>
    by_cases ha : parseIPOk env.gonet a = true
    · have hrest : ¬ ∀ x ∈ rest, parseIPOk env.gonet x = true := by
        intro hall
        apply h
        intro x hx
        rcases List.mem_cons.mp hx with rfl | hx
        · exact ha
        · exact hall x hx
      obtain ⟨pre, x, post, hl, hpre, hx, hf⟩ := ih hrest
      refine ⟨a :: pre, x, post, by rw [hl]; rfl, ?_, hx, ?_⟩
      · intro y hy
        rcases List.mem_cons.mp hy with rfl | hy
        · exact ha
        · exact hpre y hy
      · simp [firstIPError, validateIP, ha, hf]
    · have ha2 : parseIPOk env.gonet a = false := by simpa using ha
      exact ⟨[], a, rest, rfl, fun y hy => absurd hy (List.not_mem_nil y), ha2,
        by simp [firstIPError, validateIP, ha2]⟩

theorem configureNetworkManual_text (a b c d e : String) :
    "/sbin/configure-network-manual " ++ a ++ " " ++ b ++ " " ++ c ++ " " ++ d ++ " " ++ e
      = stringsJoin ["/sbin/configure-network-manual", a, b, c, d, e] " " := by
  simp [stringsJoin, String.append_assoc]

/-- C18. `validateDNSServers` splits its input on "," without trimming (the
empty input gives one empty element). When every element is a valid IP literal
it returns the empty message and stores the raw input, the element list and the
single command built from the current `installData`; otherwise it returns the
error of the first element that is not valid and leaves the state unchanged.
When the error texts of `validateIP` are not empty, the message is empty
exactly when every element is valid. -/
theorem validateDNSServers_accepts_iff_all_valid (env : Env) (w : Console) (d : String) :
    ((∀ x ∈ stringsSplit d ',', parseIPOk env.gonet x = true) →
      validateDNSServers env w d = ("", withDNSServers w d)) ∧
    ((¬ ∀ x ∈ stringsSplit d ',', parseIPOk env.gonet x = true) →
      ∃ pre x post, stringsSplit d ',' = pre ++ x :: post ∧
        (∀ y ∈ pre, parseIPOk env.gonet y = true) ∧ parseIPOk env.gonet x = false ∧
        validateIP env x = some (env.ipErrorText x) ∧
        validateDNSServers env w d = (env.ipErrorText x, w)) ∧
    ((∀ s, env.ipErrorText s ≠ "") →
      ((validateDNSServers env w d).1 = "" ↔
        ∀ x ∈ stringsSplit d ',', parseIPOk env.gonet x = true)) ∧
    stringsSplit "" ',' = [""] ∧
    stringsSplit "8.8.8.8, 1.1.1.1" ',' = ["8.8.8.8", " 1.1.1.1"] := by
  refine ⟨?_, ?_, ?_, by decide, by decide⟩
  · intro hall
    have hnone := (firstIPError_none_iff env _).mpr hall
    simp only [validateDNSServers, hnone, withDNSServers, configureNetworkManual_text]
  · intro hnot
    obtain ⟨pre, x, post, hl, hpre, hx, hf⟩ := firstIPError_first_failing env _ hnot
    refine ⟨pre, x, post, hl, hpre, hx, by simp [validateIP, hx], ?_⟩
    simp only [validateDNSServers, hf]
  · intro hmsg
    by_cases hall : ∀ x ∈ stringsSplit d ',', parseIPOk env.gonet x = true
    · have hnone := (firstIPError_none_iff env _).mpr hall
      simp only [validateDNSServers, hnone]
      exact ⟨fun _ => hall, fun _ => trivial⟩
    · obtain ⟨pre, x, post, hl, hpre, hx, hf⟩ := firstIPError_first_failing env _ hall
      simp only [validateDNSServers, hf]
      exact ⟨fun h => absurd h (hmsg x), fun h => absurd h hall⟩

/-- Witness for C18: the input "8.8.8.8,1.1.1.1" on the DNS panel of the static
pass. -/
theorem validateDNSServers_accepts_iff_all_valid_witness :
    (validateDNSServers sampleEnv (run sampleEnv atNetworkPanel backToAddressPath)
      "8.8.8.8,1.1.1.1").1 = "" ∧
    (validateDNSServers sampleEnv (run sampleEnv atNetworkPanel backToAddressPath)
      "8.8.8.8,1.1.1.1").2.config.Runcmd =
      ["/sbin/configure-network-manual eth0 192.168.1.10 255.255.255.0 192.168.1.1 8.8.8.8 1.1.1.1"] ∧
    (validateDNSServers sampleEnv (run sampleEnv atNetworkPanel backToAddressPath)
      "8.8.8.8,1.1.1.1").2.config.DNSNameservers = ["8.8.8.8", "1.1.1.1"] ∧
    (validateDNSServers sampleEnv (run sampleEnv atNetworkPanel backToAddressPath)
      "8.8.8.8,1.1.1.1").2.installData.DNSServers = "8.8.8.8,1.1.1.1" := by
  have h := (validateDNSServers_accepts_iff_all_valid sampleEnv
    (run sampleEnv atNetworkPanel backToAddressPath) "8.8.8.8,1.1.1.1").1 (by decide)
  rw [h]
  decide

set_option maxRecDepth 100000 in
/-- C19 (the code at the failing input). After a static pass with the DNS
server "1.1.1.1", a return from the proxy panel (which shows the DNS panel
again), dhcp and static again: `DNSServers` is empty, and the DNS panel, shown
by the static confirm, still has the earlier "1.1.1.1" as its `DefaultValue`,
not the initial "8.8.8.8"; the gateway panel's `DefaultValue` has followed the
cleared `Gateway`. -/
theorem dns_default_stale_on_reentry :
    (run sampleEnv atNetworkPanel reenterStaticPath).failed = none ∧
    (run sampleEnv atNetworkPanel reenterStaticPath).installData.NetworkMode
      = networkModeStatic ∧
    (run sampleEnv atNetworkPanel reenterStaticPath).installData.DNSServers = "" ∧
    Panel.dnsServersPanel ∈ (run sampleEnv atNetworkPanel reenterStaticPath).ui.shown ∧
    atNetworkPanel.ui.dnsServersDefault = "8.8.8.8" ∧
    (run sampleEnv atNetworkPanel reenterStaticPath).ui.dnsServersDefault = "1.1.1.1" ∧
    (run sampleEnv atNetworkPanel reenterStaticPath).ui.dnsServersDefault ≠ "8.8.8.8" ∧
    (run sampleEnv atNetworkPanel reenterStaticPath).installData.Gateway = "" ∧
    (run sampleEnv atNetworkPanel reenterStaticPath).ui.gatewayDefault = "" := by
  decide

/-! ## Theorems: interface options and the network panel -/

theorem splitChar_not_mem (sep : Char) (l : List Char) (h : sep ∉ l) :
    splitChar sep l = [l] := by
  induction l with
  | nil => rfl
  | cons c cs ih =>
    have hc : c ≠ sep := fun hcs => h (by rw [hcs]; exact List.mem_cons_self _ _)
    have hcs : sep ∉ cs := fun hm => h (List.mem_cons_of_mem _ hm)
    simp [splitChar, hc, ih hcs]

theorem splitChar_append (sep : Char) (pre post : List Char) (h : sep ∉ pre) :
    splitChar sep (pre ++ sep :: post) = pre :: splitChar sep post := by
  induction pre with
  | nil => simp [splitChar]
  | cons c cs ih =>
    have hc : c ≠ sep := fun hcs => h (by rw [hcs]; exact List.mem_cons_self _ _)
    have hcs : sep ∉ cs := fun hm => h (List.mem_cons_of_mem _ hm)
    simp [splitChar, hc, ih hcs]

theorem semicolon_not_digit (l : List Char) (h : ∀ c ∈ l, isDigit c = true) : ';' ∉ l := by
  intro hm
  exact absurd (h ';' hm) (by decide)

theorem semicolon_not_mem_cidrText (a b c d n : Nat) (ha : a < 256) (hb : b < 256)
    (hc : c < 256) (hd : d < 256) (hn : n ≤ 32) : ';' ∉ (cidrText a b c d n).data := by
  obtain ⟨_, a2, _⟩ := repr_byte a ha
  obtain ⟨_, b2, _⟩ := repr_byte b hb
  obtain ⟨_, c2, _⟩ := repr_byte c hc
  obtain ⟨_, d2, _⟩ := repr_byte d hd
  obtain ⟨_, n2, _⟩ := repr_byte n (by omega)
  simp only [cidrText, dottedQuad, String.data_append, List.getD_cons_zero,
    List.getD_cons_succ, List.mem_append, not_or]
  refine ⟨⟨⟨⟨⟨⟨⟨⟨semicolon_not_digit _ a2, by decide⟩, semicolon_not_digit _ b2⟩, by decide⟩,
    semicolon_not_digit _ c2⟩, by decide⟩, semicolon_not_digit _ d2⟩, by decide⟩,
    semicolon_not_digit _ n2⟩

theorem semicolon_not_mem_join (ips : List String) (h : ∀ ip ∈ ips, ';' ∉ ip.data) :
    ';' ∉ (stringsJoin ips ",").data := by
  induction ips with
  | nil => simp [stringsJoin]
  | cons a rest ih =>
    cases rest with
    | nil => simpa [stringsJoin] using h a (List.mem_cons_self _ _)
    | cons b rest2 =>
      have ha := h a (List.mem_cons_self _ _)
      have hrest := ih (fun ip hip => h ip (List.mem_cons_of_mem _ hip))
      simp only [stringsJoin, String.data_append, List.mem_append, not_or]
      exact ⟨⟨ha, by decide⟩, hrest⟩

theorem semicolon_not_mem_ipv4CIDRs (addrs : List Addr)
    (h : ∀ x ∈ addrs, x.wellFormed = true) : ∀ ip ∈ ipv4CIDRs addrs, ';' ∉ ip.data := by
  induction addrs with
  | nil => intro ip hip; cases hip
  | cons x rest ih =>
    have hrest := ih (fun y hy => h y (List.mem_cons_of_mem _ hy))
    have hx := h x (List.mem_cons_self _ _)
    cases x with
    | ipnet4 a b c d n =>
      simp only [Addr.wellFormed, Bool.and_eq_true, decide_eq_true_eq] at hx
      obtain ⟨⟨⟨⟨ha, hb⟩, hc⟩, hd⟩, hn⟩ := hx
      intro ip hip
      simp only [ipv4CIDRs, List.mem_cons] at hip
      rcases hip with rfl | hip
      · exact semicolon_not_mem_cidrText a b c d n ha hb hc hd hn
      · exact hrest ip hip
    | ipnet6 t => simpa [ipv4CIDRs] using hrest
    | other => simpa [ipv4CIDRs] using hrest

theorem stringsSplit_pair (name rest : String) (h1 : ';' ∉ name.data) (h2 : ';' ∉ rest.data) :
    stringsSplit (name ++ ";" ++ rest) ';' = [name, rest] := by
  have hdata : (name ++ ";" ++ rest).data = name.data ++ ';' :: rest.data := by
    simp [String.data_append]
  simp [stringsSplit, hdata, splitChar_append _ _ _ h1, splitChar_not_mem _ _ h2]

theorem stringsSplit_single (name : String) (h : ';' ∉ name.data) :
    stringsSplit name ';' = [name] := by
  simp [stringsSplit, splitChar_not_mem _ _ h]

theorem networkVEnter_pair (w : Console) (selected iface addr : String)
    (hs : stringsSplit selected ';' = [iface, addr]) :
    (networkVEnter w selected).installData
      = { w.installData with Interface := iface, Address := addr } ∧
    (networkVEnter w selected).failed = w.failed ∧
    (networkVEnter w selected).focus = some .hostNamePanel := by
  unfold networkVEnter
  rw [hs]
  simp only []
  (repeat' split) <;> simp [showNext, hidePanel]

theorem networkVEnter_single (w : Console) (selected : String)
    (hs : stringsSplit selected ';' = [selected]) :
    networkVEnter w selected =
      { w with failed := some ("failed to parser network view selected data: " ++ selected) } := by
  unfold networkVEnter
  rw [hs]

/-- C20. For an interface that is not a loopback and whose name contains no
";": its option is among those `getNetworkInterfaceOptions` returns; when it
has at least one IPv4 address the option value is "<name>;<cidr1>,<cidr2>,..."
and the network panel's confirm stores the name in `Interface` and the
comma-joined CIDRs in `Address` and moves on; when it has none the option value
is the bare name, and the confirm returns the error "failed to parser network
view selected data: <name>" and changes nothing else. -/
theorem interface_option_round_trip (w : Console) (ifaces : List NetInterface)
    (i : NetInterface) (hmem : i ∈ ifaces) (hloop : i.loopback = false)
    (hname : ';' ∉ i.Name.data) (hwf : ∀ x ∈ i.addrs, x.wellFormed = true) :
    interfaceOption i ∈ getNetworkInterfaceOptions ifaces ∧
    (ipv4CIDRs i.addrs ≠ [] →
      (interfaceOption i).Value = i.Name ++ ";" ++ stringsJoin (ipv4CIDRs i.addrs) "," ∧
      (networkVEnter w (interfaceOption i).Value).installData.Interface = i.Name ∧
      (networkVEnter w (interfaceOption i).Value).installData.Address
        = stringsJoin (ipv4CIDRs i.addrs) "," ∧
      (networkVEnter w (interfaceOption i).Value).failed = w.failed ∧
      (networkVEnter w (interfaceOption i).Value).focus = some .hostNamePanel) ∧
    (ipv4CIDRs i.addrs = [] →
      (interfaceOption i).Value = i.Name ∧
      networkVEnter w (interfaceOption i).Value =
        { w with failed := some ("failed to parser network view selected data: " ++ i.Name) }) := by
  refine ⟨?_, ?_, ?_⟩
  · unfold getNetworkInterfaceOptions
    apply List.mem_map.mpr
    exact ⟨i, List.mem_filter.mpr ⟨hmem, by simp [hloop]⟩, rfl⟩
  · intro hne
    have hlen : (ipv4CIDRs i.addrs).length > 0 := List.length_pos.mpr hne
    have hval : (interfaceOption i).Value
        = i.Name ++ ";" ++ stringsJoin (ipv4CIDRs i.addrs) "," := by
      simp [interfaceOption, hlen]
    have hjoin := semicolon_not_mem_join _ (semicolon_not_mem_ipv4CIDRs i.addrs hwf)
    have hsplit := stringsSplit_pair i.Name _ hname hjoin
    obtain ⟨h1, h2, h3⟩ := networkVEnter_pair w _ _ _ (hval ▸ hsplit)
    refine ⟨hval, ?_, ?_, h2, h3⟩
    · rw [h1]
    · rw [h1]
  · intro hnil
    have hval : (interfaceOption i).Value = i.Name := by
      simp [interfaceOption, hnil]
    rw [hval]
    exact ⟨rfl, networkVEnter_single w i.Name (stringsSplit_single i.Name hname)⟩

/-- Witness for C20: the interface `eth0` with two IPv4 addresses and one IPv6
address. -/
theorem interface_option_round_trip_witness :
    (interfaceOption sampleInterface).Value = "eth0;192.168.1.10/24,10.0.0.5/8" ∧
    (networkVEnter atNetworkPanel (interfaceOption sampleInterface).Value).installData.Interface
      = "eth0" ∧
    (networkVEnter atNetworkPanel (interfaceOption sampleInterface).Value).installData.Address
      = "192.168.1.10/24,10.0.0.5/8" ∧
    (networkVEnter atNetworkPanel (interfaceOption sampleInterface).Value).focus
      = some .hostNamePanel := by
  have h := (interface_option_round_trip atNetworkPanel [sampleInterface] sampleInterface
    (List.mem_cons_self _ _) rfl (by decide) (by decide)).2.1 (by decide)
  exact ⟨by decide, h.2.1.trans (by decide), h.2.2.1.trans (by decide), h.2.2.2.2⟩

/-! ## Theorems: the install section is set before the cloud-init panel -/

theorem installHoldsDevice_of_sameInstall (w w2 : Console) (hs : sameInstall w w2)
    (h : installHoldsDevice w = true) : installHoldsDevice w2 = true := by
  unfold installHoldsDevice at *
  rw [hs.1, hs.2]
  exact h

theorem sameInstall_showNext (w w2 : Console) (names : List Panel) (h : sameInstall w w2) :
    sameInstall w (showNext w2 names) := by
  unfold showNext
  split
  · exact h
  · exact h

theorem sameInstall_closeAll (w w2 : Console) (h : sameInstall w w2) :
    sameInstall w (closeAll w2) := by
  unfold closeAll askNetModeVPostClose
  split
  · exact h
  · exact h

theorem sameInstall_validateHostName (w : Console) (data : String) :
    sameInstall w (validateHostName w data).2 := by
  unfold validateHostName
  split
  · exact ⟨rfl, rfl⟩
  · exact ⟨rfl, rfl⟩

theorem sameInstall_validateAddress (env : Env) (w : Console) (data : String) :
    sameInstall w (validateAddress env w data).2 := by
  unfold validateAddress
  simp only []
  split
  · exact ⟨rfl, rfl⟩
  · exact ⟨rfl, rfl⟩

theorem sameInstall_validateGateway (env : Env) (w : Console) (data : String) :
    sameInstall w (validateGateway env w data).2 := by
  unfold validateGateway
  split
  · exact ⟨rfl, rfl⟩
  · exact ⟨rfl, rfl⟩

theorem sameInstall_validateDNSServers (env : Env) (w : Console) (data : String) :
    sameInstall w (validateDNSServers env w data).2 := by
  unfold validateDNSServers
  simp only []
  split
  · exact ⟨rfl, rfl⟩
  · exact ⟨rfl, rfl⟩

/-- The confirm pattern shared by the network panels: show the message, or
move on from the validated state. -/
theorem sameInstall_confirm (w : Console) (r : String × Console) (next : Console)
    (hr : sameInstall w r.2) (hnext : sameInstall w next) :
    sameInstall w (if r.1 ≠ "" then { r.2 with networkValidator := r.1 } else next) := by
  split
  · exact hr
  · exact hnext

theorem sameInstall_hostName (w : Console) (data : String) :
    sameInstall w (hostNameVEnter w data) ∧ sameInstall w (hostNameVArrowUp w data) ∧
      sameInstall w (hostNameVArrowDown w data) := by
  have hv := sameInstall_validateHostName w data
  refine ⟨?_, ?_, ?_⟩
  · unfold hostNameVEnter
    apply sameInstall_confirm w _ _ hv
    split
    · exact sameInstall_showNext _ _ _ (sameInstall_closeAll _ _ hv)
    · exact sameInstall_showNext _ _ _ hv
  · unfold hostNameVArrowUp
    apply sameInstall_confirm w _ _ hv
    apply sameInstall_showNext
    unfold askNetModeVPostClose
    split
    · exact hv
    · exact hv
  · unfold hostNameVArrowDown
    split
    · exact ⟨rfl, rfl⟩
    · exact sameInstall_confirm w _ _ hv (sameInstall_showNext _ _ _ hv)

theorem sameInstall_address (env : Env) (w : Console) (data : String) :
    sameInstall w (addressVConfirm env w data) ∧ sameInstall w (addressVArrowUp env w data) := by
  have hv := sameInstall_validateAddress env w data
  exact ⟨sameInstall_confirm w _ _ hv (sameInstall_showNext _ _ _ hv),
    sameInstall_confirm w _ _ hv (sameInstall_showNext _ _ _ hv)⟩

theorem sameInstall_gateway (env : Env) (w : Console) (data : String) :
    sameInstall w (gatewayVConfirm env w data) ∧ sameInstall w (gatewayVArrowUp env w data) := by
  have hv := sameInstall_validateGateway env w data
  exact ⟨sameInstall_confirm w _ _ hv (sameInstall_showNext _ _ _ hv),
    sameInstall_confirm w _ _ hv (sameInstall_showNext _ _ _ hv)⟩

theorem sameInstall_dnsServers (env : Env) (w : Console) (data : String) :
    sameInstall w (dnsServersVEnter env w data) ∧
      sameInstall w (dnsServersVArrowUp env w data) := by
  have hv := sameInstall_validateDNSServers env w data
  exact ⟨sameInstall_confirm w _ _ hv (sameInstall_showNext _ _ _ (sameInstall_closeAll _ _ hv)),
    sameInstall_confirm w _ _ hv (sameInstall_showNext _ _ _ hv)⟩

theorem sameInstall_serverURL (env : Env) (w : Console) (u : String) (ping : Option String) :
    sameInstall w (serverURLVEnter env w u ping) := by
  unfold serverURLVEnter
  split
  · exact ⟨rfl, rfl⟩
  · cases ping with
    | some m =>
      simp only [serverURLProbe, runGoroutine, List.foldl, runGoStep]
      exact sameInstall_showNext w _ _ ⟨rfl, rfl⟩
    | none =>
      simp only [serverURLProbe, runGoroutine, List.foldl, runGoStep]
      exact sameInstall_showNext w _ _ ⟨rfl, rfl⟩

theorem sameInstall_token (w : Console) (data : String) :
    sameInstall w (tokenVEnter w data) ∧ sameInstall w (tokenVEsc w) := by
  constructor
  · unfold tokenVEnter
    split
    · exact ⟨rfl, rfl⟩
    · exact sameInstall_showNext w _ _ ⟨rfl, rfl⟩
  · unfold tokenVEsc
    split
    · exact sameInstall_showNext w _ _ ⟨rfl, rfl⟩
    · exact sameInstall_showNext w _ _ ⟨rfl, rfl⟩

theorem sameInstall_passwordConfirm (w : Console) (p1 p2 : String)
    (enc : Except String String) : sameInstall w (passwordConfirmVEnter w p1 p2 enc) := by
  unfold passwordConfirmVEnter
  split
  · exact ⟨rfl, rfl⟩
  · split
    · exact ⟨rfl, rfl⟩
    · cases enc with
      | error m => exact ⟨rfl, rfl⟩
      | ok h => exact sameInstall_showNext w _ _ ⟨rfl, rfl⟩

theorem sameInstall_sshKey (env : Env) (w : Console) (url : String)
    (pubKeys : Except String (List String)) : sameInstall w (sshKeyVEnter env w url pubKeys) := by
  unfold sshKeyVEnter
  simp only []
  split
  · cases pubKeys with
    | error m =>
      simp only [sshKeyProbe, runGoroutine, List.foldl, runGoStep]
      exact sameInstall_showNext w _ _ ⟨rfl, rfl⟩
    | ok keys =>
      simp only [sshKeyProbe, runGoroutine, List.foldl, runGoStep]
      exact sameInstall_showNext w _ _ ⟨rfl, rfl⟩
  · exact sameInstall_showNext w _ _ ⟨rfl, rfl⟩

theorem sameInstall_network (w : Console) (selected : String) :
    sameInstall w (networkVEnter w selected) := by
  unfold networkVEnter
  split
  · rename_i iface addr _
    simp only []
    by_cases hi : iface = "" <;> simp only [hi, ne_eq, not_true_eq_false, not_false_eq_true,
      if_false, if_true] <;> split <;> exact sameInstall_showNext w _ _ ⟨rfl, rfl⟩
  · exact ⟨rfl, rfl⟩

theorem sameInstall_askNetMode (w : Console) (selected : String)
    (routes : Except String (List (Option String))) :
    sameInstall w (askNetModeVEnter w selected routes) ∧ sameInstall w (goBack w) := by
  have hc := sameInstall_closeAll w w ⟨rfl, rfl⟩
  constructor
  · unfold askNetModeVEnter
    simp only []
    split
    · exact sameInstall_showNext _ _ _ hc
    · cases routes with
      | error m => exact hc
      | ok rs => exact sameInstall_showNext _ _ _ hc
  · exact sameInstall_showNext _ _ _ hc

theorem sameInstall_proxy (w : Console) (data : String) :
    sameInstall w (proxyVEnter w data) ∧ sameInstall w (proxyVEsc w) := by
  constructor
  · unfold proxyVEnter
    simp only []
    apply sameInstall_showNext
    split
    · exact ⟨rfl, rfl⟩
    · exact ⟨rfl, rfl⟩
  · unfold proxyVEsc
    split
    · exact sameInstall_showNext w _ _ ⟨rfl, rfl⟩
    · exact sameInstall_showNext w _ _ ⟨rfl, rfl⟩

theorem sameInstall_confirmV (w : Console) (data : String) :
    sameInstall w (confirmVEnter w data) ∧ sameInstall w (confirmVEsc w) := by
  constructor
  · unfold confirmVEnter
    split
    · exact ⟨rfl, rfl⟩
    · exact sameInstall_showNext w _ _ ⟨rfl, rfl⟩
  · exact sameInstall_showNext w _ _ ⟨rfl, rfl⟩

theorem step_sameInstall (env : Env) (w : Console) (e : Event)
    (hd : w.focus ≠ some .diskPanel) (hc : w.focus ≠ some .cloudInitPanel) :
    sameInstall w (step env w e) := by
  unfold step
  by_cases hf : w.failed.isSome = true
  · simp only [hf, if_true]; exact ⟨rfl, rfl⟩
  · simp only [hf, Bool.false_eq_true, if_false]
    rcases hfo : w.focus with _ | p
    · exact ⟨rfl, rfl⟩
    · cases p with
      | askCreatePanel =>
        cases e.key
        · exact sameInstall_showNext w _ _ ⟨rfl, rfl⟩
        all_goals exact ⟨rfl, rfl⟩
      | diskPanel => exact absurd hfo hd
      | serverURLPanel =>
        cases e.key
        · exact sameInstall_serverURL env w _ _
        · exact sameInstall_showNext w _ _ ⟨rfl, rfl⟩
        all_goals exact ⟨rfl, rfl⟩
      | tokenPanel =>
        cases e.key
        · exact (sameInstall_token w _).1
        · exact (sameInstall_token w e.data).2
        all_goals exact ⟨rfl, rfl⟩
      | passwordPanel =>
        cases e.key
        · exact sameInstall_showNext w _ _ ⟨rfl, rfl⟩
        · exact sameInstall_showNext w _ _ ⟨rfl, rfl⟩
        · exact ⟨rfl, rfl⟩
        · exact sameInstall_showNext w _ _ ⟨rfl, rfl⟩
      | passwordConfirmPanel =>
        cases e.key
        · exact sameInstall_passwordConfirm w _ _ _
        · exact sameInstall_showNext w _ _ ⟨rfl, rfl⟩
        · exact sameInstall_showNext w _ _ ⟨rfl, rfl⟩
        · exact ⟨rfl, rfl⟩
      | sshKeyPanel =>
        cases e.key
        · exact sameInstall_sshKey env w _ _
        · exact sameInstall_showNext w _ _ ⟨rfl, rfl⟩
        all_goals exact ⟨rfl, rfl⟩
      | networkPanel =>
        cases e.key
        · exact sameInstall_network w _
        · exact sameInstall_showNext w _ _ ⟨rfl, rfl⟩
        all_goals exact ⟨rfl, rfl⟩
      | askNetworkModePanel =>
        cases e.key
        · exact (sameInstall_askNetMode w _ _).1
        · exact (sameInstall_askNetMode w e.data e.ext.routes).2
        all_goals exact ⟨rfl, rfl⟩
      | hostNamePanel =>
        cases e.key
        · exact (sameInstall_hostName w _).1
        · exact (sameInstall_askNetMode w e.data e.ext.routes).2
        · exact (sameInstall_hostName w _).2.1
        · exact (sameInstall_hostName w _).2.2
      | addressPanel =>
        cases e.key
        · exact (sameInstall_address env w _).1
        · exact (sameInstall_askNetMode w e.data e.ext.routes).2
        · exact (sameInstall_address env w _).2
        · exact (sameInstall_address env w _).1
      | gatewayPanel =>
        cases e.key
        · exact (sameInstall_gateway env w _).1
        · exact (sameInstall_askNetMode w e.data e.ext.routes).2
        · exact (sameInstall_gateway env w _).2
        · exact (sameInstall_gateway env w _).1
      | dnsServersPanel =>
        cases e.key
        · exact (sameInstall_dnsServers env w _).1
        · exact (sameInstall_askNetMode w e.data e.ext.routes).2
        · exact (sameInstall_dnsServers env w _).2
        · exact ⟨rfl, rfl⟩
      | proxyPanel =>
        cases e.key
        · exact (sameInstall_proxy w _).1
        · exact (sameInstall_proxy w e.data).2
        all_goals exact ⟨rfl, rfl⟩
      | cloudInitPanel => exact absurd hfo hc
      | confirmPanel =>
        cases e.key
        · exact (sameInstall_confirmV w _).1
        · exact (sameInstall_confirmV w e.data).2
        all_goals exact ⟨rfl, rfl⟩
      | installPanel =>
        cases e.key <;> exact ⟨rfl, rfl⟩

theorem diskVEnter_holds (w : Console) (device : String) :
    installHoldsDevice (diskVEnter w device) = true := by
  unfold diskVEnter
  simp only []
  split <;> simp [installHoldsDevice, showNext]

theorem cloudInitVEnter_holds (w : Console) (url : String) (printInstall : Option String)
    (h : installHoldsDevice w = true) :
    installHoldsDevice (cloudInitVEnter w url printInstall) = true := by
  unfold installHoldsDevice at h
  unfold cloudInitVEnter
  cases hi : w.config.Install with
  | none => rw [hi] at h; cases h
  | some inst =>
    rw [hi] at h
    simp only [decide_eq_true_eq] at h
    cases printInstall with
    | some m => simp [installHoldsDevice, hidePanel, h]
    | none => simp [installHoldsDevice, showNext, hidePanel, h]

theorem step_preserves_installInv (env : Env) (w : Console) (e : Event)
    (h : installInv w) : installInv (step env w e) := by
  by_cases hf : w.failed.isSome = true
  · have hs : step env w e = w := by simp [step, hf]
    rw [hs]; exact h
  · by_cases h1 : w.focus = some .askCreatePanel
    · have hs : step env w e = match e.key with
          | .KeyEnter => askCreateVEnter w e.data
          | _ => w := by
        simp only [step, hf, Bool.false_eq_true, if_false, h1]
        cases e.key <;> rfl
      rw [hs]
      cases e.key
      · exact Or.inr (Or.inl (by simp [askCreateVEnter, showNext]))
      all_goals exact h
    · by_cases h2 : w.focus = some .diskPanel
      · have hs : step env w e = match e.key with
            | .KeyEnter => diskVEnter w e.data
            | .KeyEsc => diskVEsc w
            | _ => w := by
          simp only [step, hf, Bool.false_eq_true, if_false, h2]
          cases e.key <;> rfl
        rw [hs]
        cases e.key
        · exact Or.inr (Or.inr (diskVEnter_holds w e.data))
        · exact Or.inl (by simp [diskVEsc, showNext])
        all_goals exact h
      · have hold : installHoldsDevice w = true := by
          rcases h with h | h | h
          · exact absurd h h1
          · exact absurd h h2
          · exact h
        by_cases h3 : w.focus = some .cloudInitPanel
        · have hs : step env w e = match e.key with
              | .KeyEnter => cloudInitVEnter w e.data e.ext.printInstall
              | .KeyEsc => cloudInitVEsc w
              | _ => w := by
            simp only [step, hf, Bool.false_eq_true, if_false, h3]
            cases e.key <;> rfl
          rw [hs]
          cases e.key
          · exact Or.inr (Or.inr (cloudInitVEnter_holds w _ _ hold))
          · exact Or.inr (Or.inr (installHoldsDevice_of_sameInstall w _
              (sameInstall_showNext w _ _ ⟨rfl, rfl⟩) hold))
          all_goals exact h
        · exact Or.inr (Or.inr (installHoldsDevice_of_sameInstall w _
            (step_sameInstall env w e h2 h3) hold))

theorem run_preserves_installInv (env : Env) (es : List Event) (w : Console)
    (h : installInv w) : installInv (run env w es) := by
  induction es generalizing w with
  | nil => exact h
  | cons e es ih => exact ih _ (step_preserves_installInv env w e h)

theorem diskVEnter_device (w : Console) (device : String) :
    (diskVEnter w device).installData.Device = device := by
  unfold diskVEnter
  simp only []
  split <;> simp [showNext]

theorem cloudInitVEnter_device (w : Console) (url : String) (printInstall : Option String) :
    (cloudInitVEnter w url printInstall).installData.Device = w.installData.Device := by
  unfold cloudInitVEnter
  cases hi : w.config.Install with
  | none => rfl
  | some inst =>
    cases printInstall with
    | some m => simp [hidePanel]
    | none => simp [showNext, hidePanel]

theorem step_preserves_chosenInv (env : Env) (w : Console) (e : Event)
    (chosen : Option String) (h : chosenInv w chosen) :
    chosenInv (step env w e)
      (if w.failed.isSome then chosen
       else
         match w.focus, e.key with
         | some .diskPanel, .KeyEnter => some e.data
         | _, _ => chosen) := by
  by_cases hf : w.failed.isSome = true
  · have hs : step env w e = w := by simp [step, hf]
    rw [hs]; simp only [hf, if_true]; exact h
  · simp only [hf, Bool.false_eq_true, if_false]
    by_cases h1 : w.focus = some .askCreatePanel
    · have hs : step env w e = match e.key with
          | .KeyEnter => askCreateVEnter w e.data
          | _ => w := by
        simp only [step, hf, Bool.false_eq_true, if_false, h1]
        cases e.key <;> rfl
      rw [hs]
      cases e.key
      · exact Or.inr (Or.inl (by simp [askCreateVEnter, showNext]))
      all_goals exact Or.inl h1
    · by_cases h2 : w.focus = some .diskPanel
      · have hs : step env w e = match e.key with
            | .KeyEnter => diskVEnter w e.data
            | .KeyEsc => diskVEsc w
            | _ => w := by
          simp only [step, hf, Bool.false_eq_true, if_false, h2]
          cases e.key <;> rfl
        rw [hs, h2]
        cases e.key
        · exact Or.inr (Or.inr (by simp only [diskVEnter_device]))
        · exact Or.inl (by simp [diskVEsc, showNext])
        all_goals exact Or.inr (Or.inl h2)
      · have hold : chosen = some w.installData.Device := by
          rcases h with h | h | h
          · exact absurd h h1
          · exact absurd h h2
          · exact h
        have hc : (match w.focus, e.key with
            | some .diskPanel, .KeyEnter => some e.data
            | _, _ => chosen) = chosen := by
          split
          · rename_i hfo _; exact absurd hfo h2
          · rfl
        rw [hc]
        by_cases h3 : w.focus = some .cloudInitPanel
        · have hs : step env w e = match e.key with
              | .KeyEnter => cloudInitVEnter w e.data e.ext.printInstall
              | .KeyEsc => cloudInitVEsc w
              | _ => w := by
            simp only [step, hf, Bool.false_eq_true, if_false, h3]
            cases e.key <;> rfl
          rw [hs]
          cases e.key
          · exact Or.inr (Or.inr (by rw [cloudInitVEnter_device]; exact hold))
          · have hd : (cloudInitVEsc w).installData.Device = w.installData.Device :=
              (sameInstall_showNext w (hidePanel w .cloudInitPanel) [.proxyPanel] ⟨rfl, rfl⟩).2
            exact Or.inr (Or.inr (hold.trans (congrArg some hd.symm)))
          all_goals exact Or.inr (Or.inr hold)
        · exact Or.inr (Or.inr (by rw [(step_sameInstall env w e h2 h3).2]; exact hold))

theorem run_preserves_chosenInv (env : Env) (es : List Event) (w : Console)
    (chosen : Option String) (h : chosenInv w chosen) :
    chosenInv (run env w es) (chosenDevice env w chosen es) := by
  induction es generalizing w chosen with
  | nil => exact h
  | cons e es ih => exact ih _ _ (step_preserves_chosenInv env w e chosen h)

/-- C21. From any state with the install-mode panel in focus, after any
sequence of key events that ends with the cloud-init panel in focus, the disk
panel's confirm has run, and the install section of the target configuration
is not nil and holds the device selected at the last such confirm, as does
`installData.Device`; the cloud-init panel's confirm then writes `ConfigURL`
into that section for every input, keeping the device, and the only error it
can return is the one of `config.PrintInstall`. -/
theorem cloudInit_install_not_nil (env : Env) (w0 : Console) (es : List Event)
    (hstart : w0.focus = some .askCreatePanel)
    (hfocus : (run env w0 es).focus = some .cloudInitPanel) :
    ∃ device inst, chosenDevice env w0 none es = some device ∧
      (run env w0 es).config.Install = some inst ∧
      inst.Device = device ∧
      (run env w0 es).installData.Device = device ∧
      ∀ (url : String) (printInstall : Option String),
        (cloudInitVEnter (run env w0 es) url printInstall).config.Install
          = some { inst with ConfigURL := url } ∧
        (cloudInitVEnter (run env w0 es) url printInstall).failed
          = (match printInstall with
            | some m => some m
            | none => (run env w0 es).failed) := by
  have hinv := run_preserves_installInv env es w0 (Or.inl hstart)
  have hcinv := run_preserves_chosenInv env es w0 none (Or.inl hstart)
  have hold : installHoldsDevice (run env w0 es) = true := by
    rcases hinv with h | h | h
    · rw [hfocus] at h; cases h
    · rw [hfocus] at h; cases h
    · exact h
  have hchosen : chosenDevice env w0 none es = some (run env w0 es).installData.Device := by
    rcases hcinv with h | h | h
    · rw [hfocus] at h; cases h
    · rw [hfocus] at h; cases h
    · exact h
  unfold installHoldsDevice at hold
  cases hi : (run env w0 es).config.Install with
  | none => rw [hi] at hold; cases hold
  | some inst =>
    rw [hi] at hold
    simp only [decide_eq_true_eq] at hold
    refine ⟨(run env w0 es).installData.Device, inst, hchosen, rfl, hold, rfl, ?_⟩
    intro url printInstall
    unfold cloudInitVEnter
    rw [hi]
    cases printInstall with
    | some m => simp [hidePanel]
    | none => simp [showNext, hidePanel]

set_option maxRecDepth 100000 in
/-- Witness for C21: on the path from the first panel to the cloud-init panel
on which the disk "/dev/sda" is selected, the install section holds "/dev/sda"
and the cloud-init confirm writes its URL next to it. -/
theorem cloudInit_install_not_nil_witness :
    Console.initial.focus = some .askCreatePanel ∧
    (run sampleEnv Console.initial toCloudInitPath).focus = some .cloudInitPanel ∧
    ∃ inst, (run sampleEnv Console.initial toCloudInitPath).config.Install = some inst ∧
      inst.Device = "/dev/sda" ∧
      (run sampleEnv Console.initial toCloudInitPath).installData.Device = "/dev/sda" ∧
      ∀ (url : String) (printInstall : Option String),
        (cloudInitVEnter (run sampleEnv Console.initial toCloudInitPath) url
            printInstall).config.Install
          = some { inst with ConfigURL := url } ∧
        (cloudInitVEnter (run sampleEnv Console.initial toCloudInitPath) url
            printInstall).failed
          = (match printInstall with
            | some m => some m
            | none => (run sampleEnv Console.initial toCloudInitPath).failed) := by
  obtain ⟨device, inst, hch, hi, hd, hdd, hrest⟩ :=
    cloudInit_install_not_nil sampleEnv Console.initial toCloudInitPath rfl (by decide)
  have hc : chosenDevice sampleEnv Console.initial none toCloudInitPath = some "/dev/sda" := by
    decide
  rw [hc] at hch
  cases hch
  exact ⟨rfl, by decide, inst, hi, hd, hdd, hrest⟩

end Harvester
